import Mathlib

/-!
# Verification of the pallettizatore layer-planning core

Shallow embedding of the geometric core of the `Allehot/pallettizatore`
repository: the domain models and reference-frame transform
(`src/verpal/models.py`), the five-block grid planner
(`src/kompongo/planner.py`; the spec notes the two packages are
near-duplicate copies), the collision checker (`src/verpal/collisions.py`)
and the layer-sequence stacker (`src/verpal/sequence.py`).

Python floats are modelled as exact rationals (`ℚ`), `math.floor` as the
rational floor, Python exceptions as `Except String`, and Python dicts
(used only for metadata and block histograms) as insertion-ordered
association lists.  Display-only float formatting (`f"{v:.1f}"` and the
like) is abstracted to `toString` of the rational: no claim concerns the
formatted text.
-/

namespace VerPal

/-- `Vector3` dataclass, `src/verpal/models.py` lines 16–20. -/
structure Vector3 where
  x : ℚ
  y : ℚ
  z : ℚ := 0
deriving DecidableEq, Repr

/-- `Dimensions` dataclass, `src/verpal/models.py` lines 9–13. -/
structure Dimensions where
  width : ℚ
  depth : ℚ
  height : ℚ
deriving DecidableEq, Repr

/-- `PickupOffset` dataclass, `src/verpal/models.py` lines 23–27. -/
structure PickupOffset where
  x : ℚ := 0
  y : ℚ := 0
  z : ℚ := 0
deriving DecidableEq, Repr

/-- `Box` dataclass, `src/verpal/models.py` lines 30–35. -/
structure Box where
  id : String
  dimensions : Dimensions
  weight : ℚ
  label_position : String
deriving DecidableEq, Repr

/-- `Pallet` dataclass, `src/verpal/models.py` lines 38–43. -/
structure Pallet where
  id : String
  dimensions : Dimensions
  max_overhang_x : ℚ
  max_overhang_y : ℚ
deriving DecidableEq, Repr

/-- `Tool` dataclass, `src/verpal/models.py` lines 46–52. -/
structure Tool where
  id : String
  name : String
  max_boxes : ℕ
  allowed_orientations : List ℤ
  pickup_offset : PickupOffset := {}
deriving DecidableEq, Repr

/-- The five origin tokens accepted by `ReferenceFrame.__post_init__`
(`src/verpal/models.py` lines 63–72): the post-validation state space is
exactly `{SW, SE, NW, NE, CENTER}` (the token "C" is normalized to
`CENTER`, and any other token raises `ValueError`). -/
inductive Origin where
  | SW
  | SE
  | NW
  | NE
  | CENTER
deriving DecidableEq, Repr

/-- The two x-axis tokens accepted by `ReferenceFrame.__post_init__`
(`src/verpal/models.py` lines 73–76): `E` or `W`. -/
inductive XAxis where
  | E
  | W
deriving DecidableEq, Repr

/-- The two y-axis tokens accepted by `ReferenceFrame.__post_init__`
(`src/verpal/models.py` lines 77–78): `N` or `S`. -/
inductive YAxis where
  | N
  | S
deriving DecidableEq, Repr

/-- `ReferenceFrame` dataclass, `src/verpal/models.py` lines 55–81.
A validly constructed frame is any of the 5 origins combined with one of
2 × 2 axis directions; the inductive fields carry exactly that state
space, so quantifying over `ReferenceFrame` quantifies over all validly
constructed frames. -/
structure ReferenceFrame where
  origin : Origin := .SW
  x_axis : XAxis := .E
  y_axis : YAxis := .N
deriving DecidableEq, Repr

/-- Token spelling of an origin, inverse of the validation table. -/
def Origin.token : Origin → String
  | .SW => "SW"
  | .SE => "SE"
  | .NW => "NW"
  | .NE => "NE"
  | .CENTER => "CENTER"

/-- Token spelling of an x-axis direction. -/
def XAxis.token : XAxis → String
  | .E => "E"
  | .W => "W"

/-- Token spelling of a y-axis direction. -/
def YAxis.token : YAxis → String
  | .N => "N"
  | .S => "S"

/-- `ReferenceFrame.axes_token` property, `src/verpal/models.py` lines 83–85. -/
def ReferenceFrame.axes_token (rf : ReferenceFrame) : String :=
  XAxis.token rf.x_axis ++ YAxis.token rf.y_axis

/-- `x_sign = 1 if self.x_axis == "E" else -1`
(`src/verpal/models.py` lines 102, 117). -/
def XAxis.sign : XAxis → ℚ
  | .E => 1
  | .W => -1

/-- `y_sign = 1 if self.y_axis == "N" else -1`
(`src/verpal/models.py` lines 103, 118). -/
def YAxis.sign : YAxis → ℚ
  | .N => 1
  | .S => -1

/-- `ReferenceFrame._origin_point`, `src/verpal/models.py` lines 123–136. -/
def ReferenceFrame.originPoint (rf : ReferenceFrame) (pallet : Pallet) : Vector3 :=
  match rf.origin with
  | .SW => ⟨0, 0, 0⟩
  | .SE => ⟨pallet.dimensions.width, 0, 0⟩
  | .NW => ⟨0, pallet.dimensions.depth, 0⟩
  | .NE => ⟨pallet.dimensions.width, pallet.dimensions.depth, 0⟩
  | .CENTER => ⟨pallet.dimensions.width / 2, pallet.dimensions.depth / 2, 0⟩

/-- `ReferenceFrame.transform`, `src/verpal/models.py` lines 87–104. -/
def ReferenceFrame.transform (rf : ReferenceFrame) (position : Vector3)
    (pallet : Pallet) (overhang_x overhang_y : ℚ) : Vector3 :=
  let base_x := position.x - overhang_x
  let base_y := position.y - overhang_y
  let origin := rf.originPoint pallet
  let dx := base_x - origin.x
  let dy := base_y - origin.y
  ⟨dx * XAxis.sign rf.x_axis, dy * YAxis.sign rf.y_axis, position.z⟩

/-- `ReferenceFrame.restore`, `src/verpal/models.py` lines 106–121. -/
def ReferenceFrame.restore (rf : ReferenceFrame) (position : Vector3)
    (pallet : Pallet) (overhang_x overhang_y : ℚ) : Vector3 :=
  let origin := rf.originPoint pallet
  let base_x := origin.x + position.x / XAxis.sign rf.x_axis
  let base_y := origin.y + position.y / YAxis.sign rf.y_axis
  ⟨base_x + overhang_x, base_y + overhang_y, position.z⟩

/-- `OrientationMode` enum, `src/verpal/models.py` lines 139–142. -/
inductive OrientationMode where
  | WIDTH
  | DEPTH
  | BOTH
deriving DecidableEq, Repr

/-- `ApproachConfig` dataclass, `src/verpal/models.py` lines 145–148. -/
structure ApproachConfig where
  direction : String
  distance : ℚ
deriving DecidableEq, Repr

/-- `LayerRequest` dataclass, `src/verpal/models.py` lines 151–161. -/
structure LayerRequest where
  pallet : Pallet
  box : Box
  tool : Tool
  start_corner : String := "SW"
  orientation_mode : OrientationMode := .BOTH
  max_overhang_x : Option ℚ := none
  max_overhang_y : Option ℚ := none
  pickup_offset : PickupOffset := {}
  reference_frame : ReferenceFrame := {}
deriving DecidableEq, Repr

/-- `LayerRequest.allowed_orientations`, `src/verpal/models.py` lines 163–169. -/
def LayerRequest.allowed_orientations (req : LayerRequest) : List ℤ :=
  match req.orientation_mode with
  | .WIDTH => [0]
  | .DEPTH => [90]
  | .BOTH => [0, 90]

/-- `LayerRequest.overhang_x` property, `src/verpal/models.py` lines 171–173. -/
def LayerRequest.overhang_x (req : LayerRequest) : ℚ :=
  req.max_overhang_x.getD req.pallet.max_overhang_x

/-- `LayerRequest.overhang_y` property, `src/verpal/models.py` lines 175–177. -/
def LayerRequest.overhang_y (req : LayerRequest) : ℚ :=
  req.max_overhang_y.getD req.pallet.max_overhang_y

/-- `LayerPlacement` dataclass, `src/verpal/models.py` lines 180–186. -/
structure LayerPlacement where
  box_id : String
  position : Vector3
  rotation : ℤ
  block : String
  sequence_index : ℕ
deriving DecidableEq, Repr

/-- `LayerPlan` dataclass, `src/verpal/models.py` lines 189–199.
The Python dict fields (`blocks`, `metadata`, `approach_overrides`) are
insertion-ordered association lists here; `fillRate` embeds the source
field `fill_ratio`. -/
structure LayerPlan where
  placements : List LayerPlacement
  orientation : ℤ
  fillRate : ℚ
  blocks : List (String × ℕ)
  start_corner : String
  metadata : List (String × String)
  collisions : List String := []
  box : Option Box := none
  approach_overrides : List (String × ApproachConfig) := []
deriving DecidableEq, Repr

/-- The sort key of `LayerPlan.ordered_placements`
(`src/verpal/models.py` lines 206–213): the tuple
`(-y if y_reverse else y, -x if x_reverse else x, sequence_index)`. -/
def orderedKey (x_reverse y_reverse : Bool) (p : LayerPlacement) : ℚ × ℚ × ℕ :=
  ( if y_reverse then -p.position.y else p.position.y
  , if x_reverse then -p.position.x else p.position.x
  , p.sequence_index )

/-- Lexicographic comparison of the Python sort-key tuples (Python's
`sorted` orders key tuples lexicographically). -/
def keyLe (a b : ℚ × ℚ × ℕ) : Bool :=
  decide (a.1 < b.1) ||
    (decide (a.1 = b.1) &&
      (decide (a.2.1 < b.2.1) ||
        (decide (a.2.1 = b.2.1) && decide (a.2.2 ≤ b.2.2))))

/-- `LayerPlan.ordered_placements`, `src/verpal/models.py` lines 201–213.
`sorted` is a stable comparison sort returning a fresh list; it is
modelled by `List.mergeSort` on the key comparison (the plan itself, being
a value here, is trivially left unmodified). -/
def LayerPlan.ordered_placements (plan : LayerPlan) : List LayerPlacement :=
  let order := plan.start_corner.toUpper
  let x_reverse := order.contains 'E'
  let y_reverse := order.contains 'N'
  plan.placements.mergeSort
    (fun p q => keyLe (orderedKey x_reverse y_reverse p) (orderedKey x_reverse y_reverse q))

/-- Modelled from the spec: the `Interleaf` record (spec §3: "separator
sheet record" with id, thickness, weight, material) is constructed by the
catalog collaborator; its dataclass is absent from `src/verpal/models.py`
although `src/verpal/sequence.py` imports and consumes it (fields `id`,
`thickness`, `weight` are read there). -/
structure Interleaf where
  id : String
  thickness : ℚ
  weight : ℚ
  material : String
deriving DecidableEq, Repr

/-- Modelled from the spec: `InterleafPlacement` (spec §3: "{level,
z_position, Interleaf} recording where in a stacked sequence a sheet was
inserted"); absent from `src/verpal/models.py` but constructed with
exactly these keyword fields in `src/verpal/sequence.py` line 93. -/
structure InterleafPlacement where
  level : ℕ
  z_position : ℚ
  interleaf : Interleaf
deriving DecidableEq, Repr

/-- `LayerSequencePlan` dataclass, `src/verpal/models.py` lines 219–224.
The `interleaves` field is modelled from the spec (§3: "list of
InterleafPlacement"): it is missing from the dataclass in
`src/verpal/models.py` but is passed to the constructor by
`src/verpal/sequence.py` line 113. -/
structure LayerSequencePlan where
  layers : List LayerPlan
  metadata : List (String × String) := []
  interleaves : List InterleafPlacement := []
deriving DecidableEq, Repr

/-- `LayerSequencePlan.total_boxes`, `src/verpal/models.py` lines 226–227. -/
def LayerSequencePlan.total_boxes (seq : LayerSequencePlan) : ℕ :=
  (seq.layers.map (fun layer => layer.placements.length)).sum

/-- `LayerSequencePlan.levels`, `src/verpal/models.py` lines 229–230. -/
def LayerSequencePlan.levelCount (seq : LayerSequencePlan) : ℕ :=
  seq.layers.length

/-- Python `max(placement.position.z for placement in layer.placements)`
over a non-empty list (`src/verpal/models.py` line 238). -/
def layerTopZ : List LayerPlacement → ℚ
  | [] => 0
  | p :: ps => ps.foldl (fun m q => max m q.position.z) p.position.z

/-- `LayerSequencePlan.max_height`, `src/verpal/models.py` lines 232–240:
starts from `0.0`, skips layers with no placements, takes the running
maximum of each remaining layer's top placement z. -/
def LayerSequencePlan.max_height (seq : LayerSequencePlan) : ℚ :=
  seq.layers.foldl
    (fun highest layer =>
      if layer.placements.isEmpty then highest
      else max highest (layerTopZ layer.placements)) 0

/-- `ensure_positive`, `src/verpal/models.py` lines 243–246. -/
def ensure_positive (value : ℚ) (name : String) : Except String ℚ :=
  if value ≤ 0 then .error (name ++ " must be positive") else .ok value

/-! ## The five-block grid planner (`src/kompongo/planner.py`) -/

/-- Oriented box footprint width:
`width = box_dims.width if orientation == 0 else box_dims.depth`
(`src/kompongo/planner.py` line 30). -/
def orientedWidth (req : LayerRequest) (orientation : ℤ) : ℚ :=
  if orientation = 0 then req.box.dimensions.width else req.box.dimensions.depth

/-- Oriented box footprint depth:
`depth = box_dims.depth if orientation == 0 else box_dims.width`
(`src/kompongo/planner.py` line 31). -/
def orientedDepth (req : LayerRequest) (orientation : ℤ) : ℚ :=
  if orientation = 0 then req.box.dimensions.depth else req.box.dimensions.width

/-- `usable_width = pallet.dimensions.width + overhang_x * 2`
(`src/kompongo/planner.py` line 33). -/
def usableWidth (req : LayerRequest) : ℚ :=
  req.pallet.dimensions.width + req.overhang_x * 2

/-- `usable_depth = pallet.dimensions.depth + overhang_y * 2`
(`src/kompongo/planner.py` line 34). -/
def usableDepth (req : LayerRequest) : ℚ :=
  req.pallet.dimensions.depth + req.overhang_y * 2

/-- `columns = max(0, floor(usable_width / width))`
(`src/kompongo/planner.py` line 36); `Int.toNat` is exactly `max 0`. -/
def gridColumns (req : LayerRequest) (orientation : ℤ) : ℕ :=
  (⌊usableWidth req / orientedWidth req orientation⌋).toNat

/-- `rows = max(0, floor(usable_depth / depth))`
(`src/kompongo/planner.py` line 37). -/
def gridRows (req : LayerRequest) (orientation : ℤ) : ℕ :=
  (⌊usableDepth req / orientedDepth req orientation⌋).toNat

/-- `RecursiveFiveBlockPlanner._block_name`, `src/kompongo/planner.py`
lines 80–94. -/
def blockName (row col rows columns : ℕ) : String :=
  let is_left := col = 0
  let is_right := col = columns - 1
  let is_bottom := row = 0
  let is_top := row = rows - 1
  if ¬ (is_left ∨ is_right ∨ is_bottom ∨ is_top) then "center"
  else if is_left ∧ ¬ (is_top ∨ is_bottom) then "west"
  else if is_right ∧ ¬ (is_top ∨ is_bottom) then "east"
  else if is_bottom then "south"
  else "north"

/-- `RecursiveFiveBlockPlanner._start_offsets`, `src/kompongo/planner.py`
lines 96–109: `offset = (usable_dim - count × box_dim) / 2`. -/
def startOffsets (usable_width usable_depth box_width box_depth : ℚ)
    (columns rows : ℕ) : ℚ × ℚ :=
  let total_width := (columns : ℚ) * box_width
  let total_depth := (rows : ℚ) * box_depth
  ((usable_width - total_width) / 2, (usable_depth - total_depth) / 2)

/-- The row-major traversal of the grid produced by the nested
`for row in range(rows): for col in range(columns):` loops
(`src/kompongo/planner.py` lines 47–48). -/
def gridCells (rows columns : ℕ) : List (ℕ × ℕ) :=
  (List.range rows).flatMap (fun row => (List.range columns).map (fun col => (row, col)))

/-- Python-dict counter update: `block_counts[name] = block_counts.get(name, 0) + 1`
(`src/kompongo/planner.py` line 50) on an insertion-ordered association list. -/
def bumpCount (counts : List (String × ℕ)) (name : String) : List (String × ℕ) :=
  if counts.any (fun entry => entry.1 = name) then
    counts.map (fun entry => if entry.1 = name then (entry.1, entry.2 + 1) else entry)
  else
    counts ++ [(name, 1)]

/-- The placement built for grid cell `(row, col)`
(`src/kompongo/planner.py` lines 51–61): centered at
`(offset_x + col*width + width/2, offset_y + row*depth + depth/2, pickup_offset.z)`,
with `sequence_index` equal to the row-major ordinal `row*columns + col`. -/
def cellPlacement (req : LayerRequest) (orientation : ℤ)
    (offset_x offset_y width depth : ℚ) (rows columns : ℕ)
    (cell : ℕ × ℕ) : LayerPlacement :=
  { box_id := req.box.id
  , position :=
      ⟨ offset_x + (cell.2 : ℚ) * width + width / 2
      , offset_y + (cell.1 : ℚ) * depth + depth / 2
      , req.pickup_offset.z ⟩
  , rotation := orientation
  , block := blockName cell.1 cell.2 rows columns
  , sequence_index := cell.1 * columns + cell.2 }

/-- `RecursiveFiveBlockPlanner._plan_orientation`, `src/kompongo/planner.py`
lines 28–78.  The numeric metadata values are stored via `toString`
(source formats them with `str(...)` / `f"{...:.1f}"` for display). -/
def planOrientation (req : LayerRequest) (orientation : ℤ) : LayerPlan :=
  let width := orientedWidth req orientation
  let depth := orientedDepth req orientation
  let usable_width := usableWidth req
  let usable_depth := usableDepth req
  let columns := gridColumns req orientation
  let rows := gridRows req orientation
  if columns = 0 ∨ rows = 0 then
    { placements := []
    , orientation := orientation
    , fillRate := 0
    , blocks := []
    , start_corner := req.start_corner
    , metadata := []
    , collisions := []
    , box := some req.box }
  else
    let total_boxes := columns * rows
    let fill := ((total_boxes : ℚ) * width * depth) / (usable_width * usable_depth)
    let offsets := startOffsets usable_width usable_depth width depth columns rows
    let cells := gridCells rows columns
    let placements :=
      cells.map (cellPlacement req orientation offsets.1 offsets.2 width depth rows columns)
    let block_counts :=
      cells.foldl (fun counts cell => bumpCount counts (blockName cell.1 cell.2 rows columns)) []
    { placements := placements
    , orientation := orientation
    , fillRate := fill
    , blocks := block_counts
    , start_corner := req.start_corner
    , metadata :=
        [ ("columns", toString columns)
        , ("rows", toString rows)
        , ("usable_width", toString usable_width)
        , ("usable_depth", toString usable_depth) ]
    , box := some req.box }

/-- The `ValueError` message of `RecursiveFiveBlockPlanner.plan_layer`
(`src/kompongo/planner.py` line 25). -/
def infeasibleMsg : String := "Unable to generate a layer with the provided inputs"

/-- The candidate-selection fold of `RecursiveFiveBlockPlanner.plan_layer`
(`src/kompongo/planner.py` lines 17–23): skip empty candidates, keep the
strictly better fill ratio, keep the earlier candidate on ties. -/
def pickBest (best : Option LayerPlan) (candidate : LayerPlan) : Option LayerPlan :=
  if candidate.placements.isEmpty then best
  else
    match best with
    | none => some candidate
    | some b => if candidate.fillRate > b.fillRate then some candidate else some b

/-- `RecursiveFiveBlockPlanner.plan_layer`, `src/kompongo/planner.py`
lines 16–26; the `ValueError` becomes an `Except.error`. -/
def planLayer (req : LayerRequest) : Except String LayerPlan :=
  let best := (req.allowed_orientations).foldl
    (fun best orientation => pickBest best (planOrientation req orientation)) none
  match best with
  | some plan => .ok plan
  | none => .error infeasibleMsg

/-! ## The frame-aware verpal planner

`src/verpal/sequence.py` imports `RecursiveFiveBlockPlanner` from
`verpal.planner`, a module that is not present under `src/` (only its
callers and tests are).  It is modelled here from the spec and from the
behaviour its callers rely on. -/

/-- Modelled from the spec: the verpal `RecursiveFiveBlockPlanner._plan_orientation`
(module `src/verpal/planner.py`, absent from `src/`).  Per spec §2 the two
packages are "near-duplicate package copies"; per spec §4.2 the verpal copy
additionally emits "reference-frame origin/axes tags" in the metadata, and
per spec §6 the emitted placements are "in canonical
(reference-frame-relative) coordinates" that consumers map back with
`restore()` — which is exactly how `src/verpal/collisions.py` (present in
`src/`) reads them, and what `src/tests/test_planner.py` asserts.  So the
verpal planner is the kompongo grid with each position passed through
`ReferenceFrame.transform`. -/
def verpalPlanOrientation (req : LayerRequest) (orientation : ℤ) : LayerPlan :=
  let base := planOrientation req orientation
  { base with
    placements := base.placements.map (fun p =>
      { p with position :=
          req.reference_frame.transform p.position req.pallet req.overhang_x req.overhang_y })
    metadata := base.metadata ++
      [ ("reference_origin", Origin.token req.reference_frame.origin)
      , ("reference_axes", ReferenceFrame.axes_token req.reference_frame) ] }

/-- Modelled from the spec: the verpal `RecursiveFiveBlockPlanner.plan_layer`
(module absent from `src/`), identical selection logic to the kompongo copy
(`src/kompongo/planner.py` lines 16–26) over the frame-aware candidates. -/
def verpalPlanLayer (req : LayerRequest) : Except String LayerPlan :=
  let best := (req.allowed_orientations).foldl
    (fun best orientation => pickBest best (verpalPlanOrientation req orientation)) none
  match best with
  | some plan => .ok plan
  | none => .error infeasibleMsg

/-! ## The collision checker (`src/verpal/collisions.py`) -/

/-- `Collision` dataclass, `src/verpal/collisions.py` lines 10–12. -/
structure Collision where
  description : String
deriving DecidableEq, Repr

/-- `CollisionChecker` with its `clearance` constructor default `1e-3`
(`src/verpal/collisions.py` lines 15–17). -/
structure CollisionChecker where
  clearance : ℚ := 1 / 1000
deriving DecidableEq, Repr

/-- `CollisionChecker._box_footprint`, `src/verpal/collisions.py`
lines 25–29. -/
def boxFootprint (plan : LayerPlan) (req : LayerRequest) : ℚ × ℚ :=
  if plan.orientation = 0 then (req.box.dimensions.width, req.box.dimensions.depth)
  else (req.box.dimensions.depth, req.box.dimensions.width)

/-- `CollisionChecker._usable_coordinates`, `src/verpal/collisions.py`
lines 68–74: restore the stored position into the usable pallet frame. -/
def usableCoordinates (placement : LayerPlacement) (req : LayerRequest) : Vector3 :=
  req.reference_frame.restore placement.position req.pallet req.overhang_x req.overhang_y

/-- `CollisionChecker._overlap`, `src/verpal/collisions.py` lines 62–66:
an AABB-on-centers test with the clearance subtracted on both axes. -/
def overlaps (checker : CollisionChecker) (a b : Vector3) (width depth : ℚ) : Prop :=
  |a.x - b.x| < width - checker.clearance ∧ |a.y - b.y| < depth - checker.clearance

instance (checker : CollisionChecker) (a b : Vector3) (width depth : ℚ) :
    Decidable (overlaps checker a b width depth) :=
  inferInstanceAs (Decidable (_ ∧ _))

/-- The `for i, first in enumerate(coords): for second in coords[i+1:]`
double loop (`src/verpal/collisions.py` lines 55–56): every ordered pair
with the first element strictly earlier in the list. -/
def pairsAfter : List α → List (α × α)
  | [] => []
  | x :: xs => (xs.map (fun y => (x, y))) ++ pairsAfter xs

/-- `CollisionChecker._check_overlap`, `src/verpal/collisions.py`
lines 48–60: pairwise overlap over restored coordinates, flagging each
colliding pair by the two sequence indices. -/
def checkOverlap (checker : CollisionChecker) (plan : LayerPlan)
    (req : LayerRequest) : List Collision :=
  let footprint := boxFootprint plan req
  let coords := plan.placements.map (fun p => (p, usableCoordinates p req))
  (pairsAfter coords).filterMap (fun pair =>
    if overlaps checker pair.1.2 pair.2.2 footprint.1 footprint.2 then
      some ⟨"Collision between " ++ toString pair.1.1.sequence_index
        ++ " and " ++ toString pair.2.1.sequence_index⟩
    else none)

/-- `CollisionChecker._check_pallet_bounds`, `src/verpal/collisions.py`
lines 31–46: flags per-placement width/depth excursions beyond the usable
rectangle plus clearance, in restored coordinates. -/
def checkPalletBounds (checker : CollisionChecker) (plan : LayerPlan)
    (req : LayerRequest) : List Collision :=
  let limit_x := req.pallet.dimensions.width + req.overhang_x * 2
  let limit_y := req.pallet.dimensions.depth + req.overhang_y * 2
  let footprint := boxFootprint plan req
  let half_width := footprint.1 / 2
  let half_depth := footprint.2 / 2
  plan.placements.flatMap (fun placement =>
    let coord := usableCoordinates placement req
    (if coord.x - half_width < -checker.clearance ∨
        coord.x + half_width > limit_x + checker.clearance then
      [Collision.mk ("Box " ++ toString placement.sequence_index
        ++ " exceeds pallet width limits")]
    else []) ++
    (if coord.y - half_depth < -checker.clearance ∨
        coord.y + half_depth > limit_y + checker.clearance then
      [Collision.mk ("Box " ++ toString placement.sequence_index
        ++ " exceeds pallet depth limits")]
    else []))

/-- `CollisionChecker.validate`, `src/verpal/collisions.py` lines 19–23. -/
def validate (checker : CollisionChecker) (plan : LayerPlan)
    (req : LayerRequest) : List Collision :=
  checkPalletBounds checker plan req ++ checkOverlap checker plan req

/-! ## The layer-sequence stacker (`src/verpal/sequence.py`) -/

/-- The `for level in range(levels)` body of
`LayerSequencePlanner.stack_layers` (`src/verpal/sequence.py` lines
53–95), written as recursion over the number of remaining levels; the
running state is the 1-based `level` counter and `current_z`.  The level
metadata merge `{**plan.metadata, "level": ..., "z_offset": ...}` appends
the two fresh keys (the planner never emits them); dict `.copy()` calls
are value semantics here. -/
def stackLoop (req : LayerRequest) (ordered_corners : List String)
    (z_increment : ℚ) (checker : Option CollisionChecker)
    (overrides : Option (List (String × ApproachConfig)))
    (interleaf : Option Interleaf) (interleaf_frequency : ℕ) (levels : ℕ) :
    ℕ → ℕ → ℚ → Except String (List LayerPlan × List InterleafPlacement)
  | 0, _, _ => .ok ([], [])
  | remaining + 1, level, current_z => do
    let corner := ordered_corners.getD (level % ordered_corners.length) req.start_corner
    let level_request := { req with start_corner := corner }
    let plan ← verpalPlanLayer level_request
    let elevated := plan.placements.map (fun placement =>
      { placement with position :=
          { placement.position with z := placement.position.z + current_z } })
    let base : LayerPlan :=
      { placements := elevated
      , orientation := plan.orientation
      , fillRate := plan.fillRate
      , blocks := plan.blocks
      , start_corner := corner
      , metadata := plan.metadata ++
          [("level", toString (level + 1)), ("z_offset", toString current_z)]
      , collisions := []
      , box := plan.box
      , approach_overrides :=
          match overrides with
          | some ov => if ov.isEmpty then plan.approach_overrides else ov
          | none => plan.approach_overrides }
    let level_plan :=
      match checker with
      | some c =>
        { base with collisions :=
            (validate c base level_request).map (fun col => col.description) }
      | none => base
    let advanced_z := current_z + z_increment
    let step :=
      match interleaf with
      | some il =>
        if level + 1 < levels ∧ (level + 1) % interleaf_frequency = 0 then
          ([InterleafPlacement.mk (level + 1) advanced_z il], advanced_z + il.thickness)
        else ([], advanced_z)
      | none => ([], advanced_z)
    let rest ← stackLoop req ordered_corners z_increment checker overrides
      interleaf interleaf_frequency levels remaining (level + 1) step.2
    .ok (level_plan :: rest.1, step.1 ++ rest.2)

/-- The `ordered_corners` defaulting of `stack_layers`
(`src/verpal/sequence.py` lines 46–48): a falsy `corners` argument (None
or the empty list) falls back to the request's start corner. -/
def orderedCorners (req : LayerRequest) (corners : Option (List String)) : List String :=
  match corners with
  | some cs => if cs.isEmpty then [req.start_corner] else cs
  | none => [req.start_corner]

/-- `LayerSequencePlanner.stack_layers`, `src/verpal/sequence.py` lines
27–113.  `levels` and `interleaf_frequency` are the non-negative Python
ints; the source's `<= 0` guards become `= 0` guards.  The two source
lines that default `ordered_corners` (a falsy check on `corners` followed
by an emptiness re-check) collapse into the single `match`/`isEmpty`
default below. -/
def stackLayers (req : LayerRequest) (levels : ℕ)
    (corners : Option (List String) := none) (z_step : Option ℚ := none)
    (checker : Option CollisionChecker := none)
    (overrides : Option (List (String × ApproachConfig)) := none)
    (interleaf : Option Interleaf := none) (interleaf_frequency : ℕ := 1) :
    Except String LayerSequencePlan :=
  if levels = 0 then .error "levels must be a positive integer"
  else
    let z_increment := z_step.getD req.box.dimensions.height
    if z_increment ≤ 0 then .error "z_step must be positive"
    else if interleaf_frequency = 0 then .error "interleaf_frequency must be positive"
    else
      let ordered_corners := orderedCorners req corners
      do
        let result ← stackLoop req ordered_corners z_increment checker overrides
          interleaf interleaf_frequency levels levels 0 0
        let metadata :=
          [ ("levels", toString levels)
          , ("z_step", toString z_increment)
          , ("corners", String.intercalate "," ordered_corners)
          , ("reference_origin", Origin.token req.reference_frame.origin)
          , ("reference_axes", ReferenceFrame.axes_token req.reference_frame) ] ++
          (match interleaf with
          | some il =>
            [ ("interleaf_id", il.id)
            , ("interleaf_thickness", toString il.thickness)
            , ("interleaf_weight", toString il.weight)
            , ("interleaf_frequency", toString interleaf_frequency) ]
          | none => [])
        .ok (LayerSequencePlan.mk result.1 metadata result.2)

/-! ## Concrete scenario data

The spec's worked example: a 1200 × 800 mm pallet with zero overhang and a
200 × 150 × 100 mm box. -/

/-- The spec's example pallet: 1200 × 800 mm, overhang 0. -/
def samplePallet : Pallet :=
  { id := "PAL-1200x800"
  , dimensions := ⟨1200, 800, 150⟩
  , max_overhang_x := 0
  , max_overhang_y := 0 }

/-- The spec's example box: 200 × 150 mm footprint, 100 mm high. -/
def sampleBox : Box :=
  { id := "BOX-200x150"
  , dimensions := ⟨200, 150, 100⟩
  , weight := 5
  , label_position := "front" }

/-- A minimal tool record (the planner only carries it through). -/
def sampleTool : Tool :=
  { id := "TL-1", name := "gripper", max_boxes := 1, allowed_orientations := [0, 90] }

/-- The example request in the default SW/E/N frame. -/
def sampleRequest : LayerRequest :=
  { pallet := samplePallet, box := sampleBox, tool := sampleTool }

/-- The `ReferenceFrame(origin="NE", x_axis="W", y_axis="S")` of the
spec's frame-comparison scenario. -/
def frameNE : ReferenceFrame := ⟨.NE, .W, .S⟩

/-- The example request carried in the NE/W/S frame. -/
def sampleRequestNE : LayerRequest :=
  { sampleRequest with reference_frame := frameNE }

/-- A separator sheet for the interleaf scenarios. -/
def sampleInterleaf : Interleaf :=
  { id := "INT-1", thickness := 2, weight := 1/2, material := "cardboard" }

/-- First placement of the overlap-tolerance example: centered at
`(100, 75)`. -/
def tolPlacementA : LayerPlacement :=
  { box_id := "BOX-200x150", position := ⟨100, 75, 0⟩, rotation := 0
  , block := "south", sequence_index := 0 }

/-- Second placement of the overlap-tolerance example: centered
`199.9995 mm` to the east of the first — nearer than one box width
(200 mm) but not nearer than one box width minus the default clearance
(199.999 mm). -/
def tolPlacementB : LayerPlacement :=
  { box_id := "BOX-200x150", position := ⟨100 + 399999 / 2000, 75, 0⟩, rotation := 0
  , block := "south", sequence_index := 1 }

/-- A two-placement layer exercising the overlap clearance band. -/
def tolPlan : LayerPlan :=
  { placements := [tolPlacementA, tolPlacementB]
  , orientation := 0
  , fillRate := 0
  , blocks := []
  , start_corner := "SW"
  , metadata := [] }

/-- A collision checker with the constructor-default clearance of
`1e-3` mm. -/
def defaultChecker : CollisionChecker := {}

/-! ## Frame round-trip lemmas -/

lemma sign_ne_zero (xa : XAxis) : XAxis.sign xa ≠ 0 := by
  cases xa <;> norm_num [XAxis.sign]

lemma ysign_ne_zero (ya : YAxis) : YAxis.sign ya ≠ 0 := by
  cases ya <;> norm_num [YAxis.sign]

lemma restore_transform (rf : ReferenceFrame) (pallet : Pallet)
    (overhang_x overhang_y : ℚ) (p : Vector3) :
    rf.restore (rf.transform p pallet overhang_x overhang_y) pallet overhang_x overhang_y = p := by
  rcases rf with ⟨o, xa, ya⟩
  rcases p with ⟨px, py, pz⟩
  cases xa <;> cases ya <;> cases o <;>
    simp [ReferenceFrame.transform, ReferenceFrame.restore, ReferenceFrame.originPoint,
      XAxis.sign, YAxis.sign, Vector3.mk.injEq] <;>
    (try constructor) <;> ring

lemma transform_restore (rf : ReferenceFrame) (pallet : Pallet)
    (overhang_x overhang_y : ℚ) (p : Vector3) :
    rf.transform (rf.restore p pallet overhang_x overhang_y) pallet overhang_x overhang_y = p := by
  rcases rf with ⟨o, xa, ya⟩
  rcases p with ⟨px, py, pz⟩
  cases xa <;> cases ya <;> cases o <;>
    simp [ReferenceFrame.transform, ReferenceFrame.restore, ReferenceFrame.originPoint,
      XAxis.sign, YAxis.sign, Vector3.mk.injEq] <;>
    (try constructor) <;> ring

lemma transform_z (rf : ReferenceFrame) (pallet : Pallet)
    (overhang_x overhang_y : ℚ) (p : Vector3) :
    (rf.transform p pallet overhang_x overhang_y).z = p.z := rfl

lemma restore_z (rf : ReferenceFrame) (pallet : Pallet)
    (overhang_x overhang_y : ℚ) (p : Vector3) :
    (rf.restore p pallet overhang_x overhang_y).z = p.z := rfl

/-! ## Grid traversal lemmas -/

lemma gridCells_length (rows columns : ℕ) :
    (gridCells rows columns).length = rows * columns := by
  induction rows with
  | zero => simp [gridCells]
  | succ n ih =>
    simp only [gridCells, List.range_succ, List.flatMap_append] at ih ⊢
    simp only [List.length_append, ih]
    simp [Nat.succ_mul]

lemma gridCells_succ (rows columns : ℕ) :
    gridCells (rows + 1) columns =
      gridCells rows columns ++ (List.range columns).map (fun col => (rows, col)) := by
  simp [gridCells, List.range_succ]

lemma gridCells_getElem (rows columns row col : ℕ) (hr : row < rows) (hc : col < columns) :
    (gridCells rows columns)[row * columns + col]? = some (row, col) := by
  induction rows with
  | zero => omega
  | succ n ih =>
    rcases Nat.lt_or_ge row n with h | h
    · have hlt : row * columns + col < (gridCells n columns).length := by
        rw [gridCells_length]
        calc row * columns + col < row * columns + columns := by omega
          _ = (row + 1) * columns := by ring
          _ ≤ n * columns := Nat.mul_le_mul_right _ (by omega)
      rw [gridCells_succ, List.getElem?_append, if_pos hlt]
      exact ih h
    · have hrn : row = n := by omega
      subst hrn
      have hge : ¬ (row * columns + col < (gridCells row columns).length) := by
        rw [gridCells_length]; omega
      rw [gridCells_succ, List.getElem?_append, if_neg hge, gridCells_length]
      have hidx : row * columns + col - row * columns = col := by omega
      rw [hidx]
      simp [List.getElem?_map, List.getElem?_range hc]

lemma mem_gridCells {rows columns row col : ℕ} :
    (row, col) ∈ gridCells rows columns ↔ row < rows ∧ col < columns := by
  simp [gridCells, List.mem_flatMap, List.mem_range, List.mem_map, Prod.ext_iff]

/-! ## Planner lemmas -/

lemma planOrientation_empty {req : LayerRequest} {o : ℤ}
    (h : gridColumns req o = 0 ∨ gridRows req o = 0) :
    planOrientation req o =
      { placements := []
      , orientation := o
      , fillRate := 0
      , blocks := []
      , start_corner := req.start_corner
      , metadata := []
      , collisions := []
      , box := some req.box } := by
  simp [planOrientation, h]

lemma planOrientation_nonempty_eq {req : LayerRequest} {o : ℤ}
    (h : ¬ (gridColumns req o = 0 ∨ gridRows req o = 0)) :
    planOrientation req o =
      { placements :=
          (gridCells (gridRows req o) (gridColumns req o)).map
            (cellPlacement req o
              ((usableWidth req - (gridColumns req o : ℚ) * orientedWidth req o) / 2)
              ((usableDepth req - (gridRows req o : ℚ) * orientedDepth req o) / 2)
              (orientedWidth req o) (orientedDepth req o)
              (gridRows req o) (gridColumns req o))
      , orientation := o
      , fillRate :=
          (((gridColumns req o * gridRows req o : ℕ) : ℚ)
              * orientedWidth req o * orientedDepth req o)
            / (usableWidth req * usableDepth req)
      , blocks :=
          (gridCells (gridRows req o) (gridColumns req o)).foldl
            (fun counts cell =>
              bumpCount counts (blockName cell.1 cell.2 (gridRows req o) (gridColumns req o))) []
      , start_corner := req.start_corner
      , metadata :=
          [ ("columns", toString (gridColumns req o))
          , ("rows", toString (gridRows req o))
          , ("usable_width", toString (usableWidth req))
          , ("usable_depth", toString (usableDepth req)) ]
      , collisions := []
      , box := some req.box } := by
  simp [planOrientation, h, startOffsets]

lemma planOrientation_length (req : LayerRequest) (o : ℤ) :
    (planOrientation req o).placements.length = gridRows req o * gridColumns req o := by
  by_cases h : gridColumns req o = 0 ∨ gridRows req o = 0
  · rw [planOrientation_empty h]
    rcases h with h | h <;> simp [h]
  · rw [planOrientation_nonempty_eq h]
    simp [gridCells_length]

lemma planOrientation_placements_empty_iff (req : LayerRequest) (o : ℤ) :
    (planOrientation req o).placements = [] ↔
      gridColumns req o = 0 ∨ gridRows req o = 0 := by
  constructor
  · intro h
    by_contra hc
    have hlen := planOrientation_length req o
    rw [h] at hlen
    simp only [List.length_nil] at hlen
    push_neg at hc
    rcases hc with ⟨h1, h2⟩
    have := Nat.mul_pos (Nat.pos_of_ne_zero h2) (Nat.pos_of_ne_zero h1)
    omega
  · intro h
    rw [planOrientation_empty h]

lemma planOrientation_orientation (req : LayerRequest) (o : ℤ) :
    (planOrientation req o).orientation = o := by
  by_cases h : gridColumns req o = 0 ∨ gridRows req o = 0
  · rw [planOrientation_empty h]
  · rw [planOrientation_nonempty_eq h]

lemma planOrientation_z {req : LayerRequest} {o : ℤ} {p : LayerPlacement}
    (hp : p ∈ (planOrientation req o).placements) :
    p.position.z = req.pickup_offset.z := by
  by_cases h : gridColumns req o = 0 ∨ gridRows req o = 0
  · rw [planOrientation_empty h] at hp
    simp at hp
  · rw [planOrientation_nonempty_eq h] at hp
    simp only [List.mem_map] at hp
    obtain ⟨cell, _, rfl⟩ := hp
    rfl

lemma planOrientation_corner (req : LayerRequest) (s : String) (o : ℤ) :
    planOrientation { req with start_corner := s } o =
      { planOrientation req o with start_corner := s } := by
  by_cases hc : gridColumns req o = 0 ∨ gridRows req o = 0
  · rw [planOrientation_empty hc,
      planOrientation_empty
        (show gridColumns { req with start_corner := s } o = 0 ∨
          gridRows { req with start_corner := s } o = 0 from hc)]
  · rw [planOrientation_nonempty_eq hc,
      planOrientation_nonempty_eq
        (show ¬ (gridColumns { req with start_corner := s } o = 0 ∨
          gridRows { req with start_corner := s } o = 0) from hc)]
    rfl

/-! ## Layer selection lemmas -/

lemma planLayer_WIDTH {req : LayerRequest} (h : req.orientation_mode = .WIDTH) :
    planLayer req =
      if (planOrientation req 0).placements.isEmpty then .error infeasibleMsg
      else .ok (planOrientation req 0) := by
  simp only [planLayer, LayerRequest.allowed_orientations, h, List.foldl, pickBest]
  by_cases he : (planOrientation req 0).placements.isEmpty <;> simp [he]

lemma planLayer_DEPTH {req : LayerRequest} (h : req.orientation_mode = .DEPTH) :
    planLayer req =
      if (planOrientation req 90).placements.isEmpty then .error infeasibleMsg
      else .ok (planOrientation req 90) := by
  simp only [planLayer, LayerRequest.allowed_orientations, h, List.foldl, pickBest]
  by_cases he : (planOrientation req 90).placements.isEmpty <;> simp [he]

lemma planLayer_BOTH {req : LayerRequest} (h : req.orientation_mode = .BOTH) :
    planLayer req =
      if (planOrientation req 0).placements.isEmpty then
        (if (planOrientation req 90).placements.isEmpty then .error infeasibleMsg
         else .ok (planOrientation req 90))
      else if (planOrientation req 90).placements.isEmpty then .ok (planOrientation req 0)
      else if (planOrientation req 90).fillRate > (planOrientation req 0).fillRate then
        .ok (planOrientation req 90)
      else .ok (planOrientation req 0) := by
  simp only [planLayer, LayerRequest.allowed_orientations, h, List.foldl, pickBest]
  by_cases h0 : (planOrientation req 0).placements.isEmpty <;>
    by_cases h90 : (planOrientation req 90).placements.isEmpty <;>
    by_cases hf : (planOrientation req 0).fillRate < (planOrientation req 90).fillRate <;>
    simp [h0, h90, hf, gt_iff_lt]

lemma verpalPlanLayer_WIDTH {req : LayerRequest} (h : req.orientation_mode = .WIDTH) :
    verpalPlanLayer req =
      if (verpalPlanOrientation req 0).placements.isEmpty then .error infeasibleMsg
      else .ok (verpalPlanOrientation req 0) := by
  simp only [verpalPlanLayer, LayerRequest.allowed_orientations, h, List.foldl, pickBest]
  by_cases he : (verpalPlanOrientation req 0).placements.isEmpty <;> simp [he]

lemma verpalPlanLayer_DEPTH {req : LayerRequest} (h : req.orientation_mode = .DEPTH) :
    verpalPlanLayer req =
      if (verpalPlanOrientation req 90).placements.isEmpty then .error infeasibleMsg
      else .ok (verpalPlanOrientation req 90) := by
  simp only [verpalPlanLayer, LayerRequest.allowed_orientations, h, List.foldl, pickBest]
  by_cases he : (verpalPlanOrientation req 90).placements.isEmpty <;> simp [he]

lemma verpalPlanLayer_BOTH {req : LayerRequest} (h : req.orientation_mode = .BOTH) :
    verpalPlanLayer req =
      if (verpalPlanOrientation req 0).placements.isEmpty then
        (if (verpalPlanOrientation req 90).placements.isEmpty then .error infeasibleMsg
         else .ok (verpalPlanOrientation req 90))
      else if (verpalPlanOrientation req 90).placements.isEmpty then
        .ok (verpalPlanOrientation req 0)
      else if (verpalPlanOrientation req 90).fillRate > (verpalPlanOrientation req 0).fillRate then
        .ok (verpalPlanOrientation req 90)
      else .ok (verpalPlanOrientation req 0) := by
  simp only [verpalPlanLayer, LayerRequest.allowed_orientations, h, List.foldl, pickBest]
  by_cases h0 : (verpalPlanOrientation req 0).placements.isEmpty <;>
    by_cases h90 : (verpalPlanOrientation req 90).placements.isEmpty <;>
    by_cases hf : (verpalPlanOrientation req 0).fillRate < (verpalPlanOrientation req 90).fillRate <;>
    simp [h0, h90, hf, gt_iff_lt]

/-! ## Relating the two planner copies -/

lemma verpalPlanOrientation_placements (req : LayerRequest) (o : ℤ) :
    (verpalPlanOrientation req o).placements =
      (planOrientation req o).placements.map (fun p =>
        { p with position :=
            req.reference_frame.transform p.position req.pallet req.overhang_x req.overhang_y }) :=
  rfl

lemma verpalPlanOrientation_fillRate (req : LayerRequest) (o : ℤ) :
    (verpalPlanOrientation req o).fillRate = (planOrientation req o).fillRate := rfl

lemma verpalPlanOrientation_orientation (req : LayerRequest) (o : ℤ) :
    (verpalPlanOrientation req o).orientation = o := by
  have h : (verpalPlanOrientation req o).orientation = (planOrientation req o).orientation := rfl
  rw [h, planOrientation_orientation]

lemma verpalPlanOrientation_empty_iff (req : LayerRequest) (o : ℤ) :
    (verpalPlanOrientation req o).placements = [] ↔
      (planOrientation req o).placements = [] := by
  rw [verpalPlanOrientation_placements]
  simp

lemma verpalPlanOrientation_z {req : LayerRequest} {o : ℤ} {p : LayerPlacement}
    (hp : p ∈ (verpalPlanOrientation req o).placements) :
    p.position.z = req.pickup_offset.z := by
  rw [verpalPlanOrientation_placements] at hp
  simp only [List.mem_map] at hp
  obtain ⟨q, hq, rfl⟩ := hp
  simp only [transform_z]
  exact planOrientation_z hq

lemma verpalPlanOrientation_corner (req : LayerRequest) (s : String) (o : ℤ) :
    verpalPlanOrientation { req with start_corner := s } o =
      { verpalPlanOrientation req o with start_corner := s } := by
  simp only [verpalPlanOrientation, planOrientation_corner]
  rfl

lemma planLayer_corner (req : LayerRequest) (s : String) :
    planLayer { req with start_corner := s } =
      (planLayer req).map (fun p => { p with start_corner := s }) := by
  rcases req with ⟨pal, bx, tl, corner, mode, mx, my, po, rf⟩
  cases mode
  · rw [planLayer_WIDTH rfl, planLayer_WIDTH rfl, planOrientation_corner]
    by_cases he : (planOrientation ⟨pal, bx, tl, corner, .WIDTH, mx, my, po, rf⟩ 0).placements.isEmpty <;>
      simp [he, Except.map]
  · rw [planLayer_DEPTH rfl, planLayer_DEPTH rfl, planOrientation_corner]
    by_cases he : (planOrientation ⟨pal, bx, tl, corner, .DEPTH, mx, my, po, rf⟩ 90).placements.isEmpty <;>
      simp [he, Except.map]
  · rw [planLayer_BOTH rfl, planLayer_BOTH rfl,
      planOrientation_corner ⟨pal, bx, tl, corner, .BOTH, mx, my, po, rf⟩ s 0,
      planOrientation_corner ⟨pal, bx, tl, corner, .BOTH, mx, my, po, rf⟩ s 90]
    by_cases h0 : (planOrientation ⟨pal, bx, tl, corner, .BOTH, mx, my, po, rf⟩ 0).placements.isEmpty <;>
      by_cases h90 : (planOrientation ⟨pal, bx, tl, corner, .BOTH, mx, my, po, rf⟩ 90).placements.isEmpty <;>
      by_cases hf : (planOrientation ⟨pal, bx, tl, corner, .BOTH, mx, my, po, rf⟩ 0).fillRate <
          (planOrientation ⟨pal, bx, tl, corner, .BOTH, mx, my, po, rf⟩ 90).fillRate <;>
      simp [h0, h90, hf, gt_iff_lt, Except.map]

lemma verpalPlanLayer_corner (req : LayerRequest) (s : String) :
    verpalPlanLayer { req with start_corner := s } =
      (verpalPlanLayer req).map (fun p => { p with start_corner := s }) := by
  rcases req with ⟨pal, bx, tl, corner, mode, mx, my, po, rf⟩
  cases mode
  · rw [verpalPlanLayer_WIDTH rfl, verpalPlanLayer_WIDTH rfl, verpalPlanOrientation_corner]
    by_cases he : (verpalPlanOrientation ⟨pal, bx, tl, corner, .WIDTH, mx, my, po, rf⟩ 0).placements.isEmpty <;>
      simp [he, Except.map]
  · rw [verpalPlanLayer_DEPTH rfl, verpalPlanLayer_DEPTH rfl, verpalPlanOrientation_corner]
    by_cases he : (verpalPlanOrientation ⟨pal, bx, tl, corner, .DEPTH, mx, my, po, rf⟩ 90).placements.isEmpty <;>
      simp [he, Except.map]
  · rw [verpalPlanLayer_BOTH rfl, verpalPlanLayer_BOTH rfl,
      verpalPlanOrientation_corner ⟨pal, bx, tl, corner, .BOTH, mx, my, po, rf⟩ s 0,
      verpalPlanOrientation_corner ⟨pal, bx, tl, corner, .BOTH, mx, my, po, rf⟩ s 90]
    by_cases h0 : (verpalPlanOrientation ⟨pal, bx, tl, corner, .BOTH, mx, my, po, rf⟩ 0).placements.isEmpty <;>
      by_cases h90 : (verpalPlanOrientation ⟨pal, bx, tl, corner, .BOTH, mx, my, po, rf⟩ 90).placements.isEmpty <;>
      by_cases hf : (verpalPlanOrientation ⟨pal, bx, tl, corner, .BOTH, mx, my, po, rf⟩ 0).fillRate <
          (verpalPlanOrientation ⟨pal, bx, tl, corner, .BOTH, mx, my, po, rf⟩ 90).fillRate <;>
      simp [h0, h90, hf, gt_iff_lt, Except.map]

/-! ## Case inventories for the selection -/

lemma planLayer_WIDTH_cases {req : LayerRequest} (h : req.orientation_mode = .WIDTH) :
    ((planOrientation req 0).placements = [] ∧ planLayer req = .error infeasibleMsg) ∨
    ((planOrientation req 0).placements ≠ [] ∧ planLayer req = .ok (planOrientation req 0)) := by
  rw [planLayer_WIDTH h]
  by_cases he : (planOrientation req 0).placements.isEmpty
  · exact Or.inl ⟨List.isEmpty_iff.mp he, by rw [if_pos he]⟩
  · exact Or.inr ⟨fun hh => he (List.isEmpty_iff.mpr hh), by rw [if_neg he]⟩

lemma planLayer_DEPTH_cases {req : LayerRequest} (h : req.orientation_mode = .DEPTH) :
    ((planOrientation req 90).placements = [] ∧ planLayer req = .error infeasibleMsg) ∨
    ((planOrientation req 90).placements ≠ [] ∧ planLayer req = .ok (planOrientation req 90)) := by
  rw [planLayer_DEPTH h]
  by_cases he : (planOrientation req 90).placements.isEmpty
  · exact Or.inl ⟨List.isEmpty_iff.mp he, by rw [if_pos he]⟩
  · exact Or.inr ⟨fun hh => he (List.isEmpty_iff.mpr hh), by rw [if_neg he]⟩

lemma planLayer_BOTH_cases {req : LayerRequest} (h : req.orientation_mode = .BOTH) :
    ((planOrientation req 0).placements = [] ∧ (planOrientation req 90).placements = [] ∧
      planLayer req = .error infeasibleMsg) ∨
    ((planOrientation req 0).placements = [] ∧ (planOrientation req 90).placements ≠ [] ∧
      planLayer req = .ok (planOrientation req 90)) ∨
    ((planOrientation req 0).placements ≠ [] ∧ (planOrientation req 90).placements = [] ∧
      planLayer req = .ok (planOrientation req 0)) ∨
    ((planOrientation req 0).placements ≠ [] ∧ (planOrientation req 90).placements ≠ [] ∧
      (((planOrientation req 0).fillRate < (planOrientation req 90).fillRate ∧
          planLayer req = .ok (planOrientation req 90)) ∨
        ((planOrientation req 90).fillRate ≤ (planOrientation req 0).fillRate ∧
          planLayer req = .ok (planOrientation req 0)))) := by
  rw [planLayer_BOTH h]
  by_cases h0 : (planOrientation req 0).placements.isEmpty <;>
    by_cases h90 : (planOrientation req 90).placements.isEmpty
  · exact Or.inl ⟨List.isEmpty_iff.mp h0, List.isEmpty_iff.mp h90,
      by rw [if_pos h0, if_pos h90]⟩
  · exact Or.inr (Or.inl ⟨List.isEmpty_iff.mp h0,
      fun hh => h90 (List.isEmpty_iff.mpr hh), by rw [if_pos h0, if_neg h90]⟩)
  · exact Or.inr (Or.inr (Or.inl ⟨fun hh => h0 (List.isEmpty_iff.mpr hh),
      List.isEmpty_iff.mp h90, by rw [if_neg h0, if_pos h90]⟩))
  · refine Or.inr (Or.inr (Or.inr ⟨fun hh => h0 (List.isEmpty_iff.mpr hh),
      fun hh => h90 (List.isEmpty_iff.mpr hh), ?_⟩))
    rcases lt_or_le (planOrientation req 0).fillRate (planOrientation req 90).fillRate with hf | hf
    · exact Or.inl ⟨hf, by rw [if_neg h0, if_neg h90, if_pos hf]⟩
    · exact Or.inr ⟨hf, by rw [if_neg h0, if_neg h90, if_neg (not_lt.mpr hf)]⟩

lemma verpalPlanLayer_WIDTH_cases {req : LayerRequest} (h : req.orientation_mode = .WIDTH) :
    ((verpalPlanOrientation req 0).placements = [] ∧ verpalPlanLayer req = .error infeasibleMsg) ∨
    ((verpalPlanOrientation req 0).placements ≠ [] ∧
      verpalPlanLayer req = .ok (verpalPlanOrientation req 0)) := by
  rw [verpalPlanLayer_WIDTH h]
  by_cases he : (verpalPlanOrientation req 0).placements.isEmpty
  · exact Or.inl ⟨List.isEmpty_iff.mp he, by rw [if_pos he]⟩
  · exact Or.inr ⟨fun hh => he (List.isEmpty_iff.mpr hh), by rw [if_neg he]⟩

lemma verpalPlanLayer_DEPTH_cases {req : LayerRequest} (h : req.orientation_mode = .DEPTH) :
    ((verpalPlanOrientation req 90).placements = [] ∧ verpalPlanLayer req = .error infeasibleMsg) ∨
    ((verpalPlanOrientation req 90).placements ≠ [] ∧
      verpalPlanLayer req = .ok (verpalPlanOrientation req 90)) := by
  rw [verpalPlanLayer_DEPTH h]
  by_cases he : (verpalPlanOrientation req 90).placements.isEmpty
  · exact Or.inl ⟨List.isEmpty_iff.mp he, by rw [if_pos he]⟩
  · exact Or.inr ⟨fun hh => he (List.isEmpty_iff.mpr hh), by rw [if_neg he]⟩

lemma verpalPlanLayer_BOTH_cases {req : LayerRequest} (h : req.orientation_mode = .BOTH) :
    ((verpalPlanOrientation req 0).placements = [] ∧
      (verpalPlanOrientation req 90).placements = [] ∧
      verpalPlanLayer req = .error infeasibleMsg) ∨
    ((verpalPlanOrientation req 0).placements = [] ∧
      (verpalPlanOrientation req 90).placements ≠ [] ∧
      verpalPlanLayer req = .ok (verpalPlanOrientation req 90)) ∨
    ((verpalPlanOrientation req 0).placements ≠ [] ∧
      (verpalPlanOrientation req 90).placements = [] ∧
      verpalPlanLayer req = .ok (verpalPlanOrientation req 0)) ∨
    ((verpalPlanOrientation req 0).placements ≠ [] ∧
      (verpalPlanOrientation req 90).placements ≠ [] ∧
      (((verpalPlanOrientation req 0).fillRate < (verpalPlanOrientation req 90).fillRate ∧
          verpalPlanLayer req = .ok (verpalPlanOrientation req 90)) ∨
        ((verpalPlanOrientation req 90).fillRate ≤ (verpalPlanOrientation req 0).fillRate ∧
          verpalPlanLayer req = .ok (verpalPlanOrientation req 0)))) := by
  rw [verpalPlanLayer_BOTH h]
  by_cases h0 : (verpalPlanOrientation req 0).placements.isEmpty <;>
    by_cases h90 : (verpalPlanOrientation req 90).placements.isEmpty
  · exact Or.inl ⟨List.isEmpty_iff.mp h0, List.isEmpty_iff.mp h90,
      by rw [if_pos h0, if_pos h90]⟩
  · exact Or.inr (Or.inl ⟨List.isEmpty_iff.mp h0,
      fun hh => h90 (List.isEmpty_iff.mpr hh), by rw [if_pos h0, if_neg h90]⟩)
  · exact Or.inr (Or.inr (Or.inl ⟨fun hh => h0 (List.isEmpty_iff.mpr hh),
      List.isEmpty_iff.mp h90, by rw [if_neg h0, if_pos h90]⟩))
  · refine Or.inr (Or.inr (Or.inr ⟨fun hh => h0 (List.isEmpty_iff.mpr hh),
      fun hh => h90 (List.isEmpty_iff.mpr hh), ?_⟩))
    rcases lt_or_le (verpalPlanOrientation req 0).fillRate
      (verpalPlanOrientation req 90).fillRate with hf | hf
    · exact Or.inl ⟨hf, by rw [if_neg h0, if_neg h90, if_pos hf]⟩
    · exact Or.inr ⟨hf, by rw [if_neg h0, if_neg h90, if_neg (not_lt.mpr hf)]⟩

/-! ## Derived success/failure destructors -/

lemma planLayer_error_iff (req : LayerRequest) :
    (∃ e, planLayer req = .error e) ↔
      ∀ o ∈ req.allowed_orientations, (planOrientation req o).placements = [] := by
  cases hm : req.orientation_mode
  · rcases planLayer_WIDTH_cases hm with ⟨he, hp⟩ | ⟨he, hp⟩ <;>
      simp [LayerRequest.allowed_orientations, hm, hp, he]
  · rcases planLayer_DEPTH_cases hm with ⟨he, hp⟩ | ⟨he, hp⟩ <;>
      simp [LayerRequest.allowed_orientations, hm, hp, he]
  · rcases planLayer_BOTH_cases hm with ⟨h0, h90, hp⟩ | ⟨h0, h90, hp⟩ | ⟨h0, h90, hp⟩ |
      ⟨h0, h90, ⟨hf, hp⟩ | ⟨hf, hp⟩⟩ <;>
      simp [LayerRequest.allowed_orientations, hm, hp, h0, h90]

lemma planLayer_error_msg {req : LayerRequest} {e : String}
    (h : planLayer req = .error e) : e = infeasibleMsg := by
  cases hm : req.orientation_mode
  · rcases planLayer_WIDTH_cases hm with ⟨_, hp⟩ | ⟨_, hp⟩ <;> rw [hp] at h <;> simp_all
  · rcases planLayer_DEPTH_cases hm with ⟨_, hp⟩ | ⟨_, hp⟩ <;> rw [hp] at h <;> simp_all
  · rcases planLayer_BOTH_cases hm with ⟨_, _, hp⟩ | ⟨_, _, hp⟩ | ⟨_, _, hp⟩ |
      ⟨_, _, ⟨_, hp⟩ | ⟨_, hp⟩⟩ <;> rw [hp] at h <;> simp_all

lemma verpalPlanLayer_error_iff_planLayer (req : LayerRequest) (e : String) :
    verpalPlanLayer req = .error e ↔ planLayer req = .error e := by
  cases hm : req.orientation_mode
  · rcases planLayer_WIDTH_cases hm with ⟨he, hp⟩ | ⟨he, hp⟩ <;>
      rcases verpalPlanLayer_WIDTH_cases hm with ⟨hve, hvp⟩ | ⟨hve, hvp⟩ <;>
      simp only [ne_eq, verpalPlanOrientation_empty_iff] at hve <;>
      simp_all
  · rcases planLayer_DEPTH_cases hm with ⟨he, hp⟩ | ⟨he, hp⟩ <;>
      rcases verpalPlanLayer_DEPTH_cases hm with ⟨hve, hvp⟩ | ⟨hve, hvp⟩ <;>
      simp only [ne_eq, verpalPlanOrientation_empty_iff] at hve <;>
      simp_all
  · rcases planLayer_BOTH_cases hm with ⟨h0, h90, hp⟩ | ⟨h0, h90, hp⟩ | ⟨h0, h90, hp⟩ |
      ⟨h0, h90, ⟨hf, hp⟩ | ⟨hf, hp⟩⟩ <;>
      rcases verpalPlanLayer_BOTH_cases hm with ⟨hv0, hv90, hvp⟩ | ⟨hv0, hv90, hvp⟩ |
        ⟨hv0, hv90, hvp⟩ | ⟨hv0, hv90, ⟨hvf, hvp⟩ | ⟨hvf, hvp⟩⟩ <;>
      simp only [ne_eq, verpalPlanOrientation_empty_iff] at hv0 hv90 <;>
      simp_all

lemma planLayer_ok_dest {req : LayerRequest} {p : LayerPlan}
    (h : planLayer req = .ok p) :
    (∃ o ∈ req.allowed_orientations, p = planOrientation req o) ∧
      p.placements ≠ [] ∧
      ∀ o ∈ req.allowed_orientations, (planOrientation req o).placements ≠ [] →
        (planOrientation req o).fillRate ≤ p.fillRate := by
  cases hm : req.orientation_mode
  · rcases planLayer_WIDTH_cases hm with ⟨he, hp⟩ | ⟨he, hp⟩ <;> rw [hp] at h
    · simp_all
    · simp only [Except.ok.injEq] at h
      subst h
      simp [LayerRequest.allowed_orientations, hm, he]
  · rcases planLayer_DEPTH_cases hm with ⟨he, hp⟩ | ⟨he, hp⟩ <;> rw [hp] at h
    · simp_all
    · simp only [Except.ok.injEq] at h
      subst h
      simp [LayerRequest.allowed_orientations, hm, he]
  · rcases planLayer_BOTH_cases hm with ⟨h0, h90, hp⟩ | ⟨h0, h90, hp⟩ | ⟨h0, h90, hp⟩ |
      ⟨h0, h90, ⟨hf, hp⟩ | ⟨hf, hp⟩⟩ <;> rw [hp] at h
    · simp_all
    · simp only [Except.ok.injEq] at h
      subst h
      refine ⟨⟨90, by simp [LayerRequest.allowed_orientations, hm], rfl⟩, h90, ?_⟩
      intro o ho
      simp only [LayerRequest.allowed_orientations, hm, List.mem_cons,
        List.mem_singleton, List.not_mem_nil, or_false] at ho
      rcases ho with rfl | rfl <;> simp_all
    · simp only [Except.ok.injEq] at h
      subst h
      refine ⟨⟨0, by simp [LayerRequest.allowed_orientations, hm], rfl⟩, h0, ?_⟩
      intro o ho
      simp only [LayerRequest.allowed_orientations, hm, List.mem_cons,
        List.mem_singleton, List.not_mem_nil, or_false] at ho
      rcases ho with rfl | rfl <;> simp_all
    · simp only [Except.ok.injEq] at h
      subst h
      refine ⟨⟨90, by simp [LayerRequest.allowed_orientations, hm], rfl⟩, h90, ?_⟩
      intro o ho
      simp only [LayerRequest.allowed_orientations, hm, List.mem_cons,
        List.mem_singleton, List.not_mem_nil, or_false] at ho
      rcases ho with rfl | rfl
      · intro _; exact le_of_lt hf
      · intro _; exact le_refl _
    · simp only [Except.ok.injEq] at h
      subst h
      refine ⟨⟨0, by simp [LayerRequest.allowed_orientations, hm], rfl⟩, h0, ?_⟩
      intro o ho
      simp only [LayerRequest.allowed_orientations, hm, List.mem_cons,
        List.mem_singleton, List.not_mem_nil, or_false] at ho
      rcases ho with rfl | rfl
      · intro _; exact le_refl _
      · intro _; exact hf

lemma verpalPlanLayer_ok_dest {req : LayerRequest} {p : LayerPlan}
    (h : verpalPlanLayer req = .ok p) :
    (∃ o ∈ req.allowed_orientations, p = verpalPlanOrientation req o) ∧
      p.placements ≠ [] := by
  cases hm : req.orientation_mode
  · rcases verpalPlanLayer_WIDTH_cases hm with ⟨he, hp⟩ | ⟨he, hp⟩ <;> rw [hp] at h
    · simp_all
    · simp only [Except.ok.injEq] at h
      subst h
      simp [LayerRequest.allowed_orientations, hm, he]
  · rcases verpalPlanLayer_DEPTH_cases hm with ⟨he, hp⟩ | ⟨he, hp⟩ <;> rw [hp] at h
    · simp_all
    · simp only [Except.ok.injEq] at h
      subst h
      simp [LayerRequest.allowed_orientations, hm, he]
  · rcases verpalPlanLayer_BOTH_cases hm with ⟨h0, h90, hp⟩ | ⟨h0, h90, hp⟩ | ⟨h0, h90, hp⟩ |
      ⟨h0, h90, ⟨hf, hp⟩ | ⟨hf, hp⟩⟩ <;> rw [hp] at h
    · simp_all
    all_goals
      simp only [Except.ok.injEq] at h
    all_goals
      subst h
    · exact ⟨⟨90, by simp [LayerRequest.allowed_orientations, hm], rfl⟩, h90⟩
    · exact ⟨⟨0, by simp [LayerRequest.allowed_orientations, hm], rfl⟩, h0⟩
    · exact ⟨⟨90, by simp [LayerRequest.allowed_orientations, hm], rfl⟩, h90⟩
    · exact ⟨⟨0, by simp [LayerRequest.allowed_orientations, hm], rfl⟩, h0⟩

lemma verpalPlanLayer_ok_z {req : LayerRequest} {p : LayerPlan}
    (h : verpalPlanLayer req = .ok p) {q : LayerPlacement}
    (hq : q ∈ p.placements) : q.position.z = req.pickup_offset.z := by
  obtain ⟨⟨o, _, rfl⟩, _⟩ := verpalPlanLayer_ok_dest h
  exact verpalPlanOrientation_z hq

/-! ## Stacking lemmas -/

lemma stackLoop_zero (req : LayerRequest) (oc : List String) (z_inc : ℚ)
    (ch : Option CollisionChecker) (ov : Option (List (String × ApproachConfig)))
    (il : Option Interleaf) (freq levels level : ℕ) (cz : ℚ) :
    stackLoop req oc z_inc ch ov il freq levels 0 level cz = .ok ([], []) := rfl

lemma stackLoop_error {req : LayerRequest} {e : String}
    (hp : verpalPlanLayer req = .error e) (oc : List String) (z_inc : ℚ)
    (ch : Option CollisionChecker) (ov : Option (List (String × ApproachConfig)))
    (il : Option Interleaf) (freq levels n level : ℕ) (cz : ℚ) :
    stackLoop req oc z_inc ch ov il freq levels (n + 1) level cz = .error e := by
  have hcorner := verpalPlanLayer_corner req (oc.getD (level % oc.length) req.start_corner)
  rw [hp] at hcorner
  simp only [stackLoop, hcorner, Except.map, Except.bind, bind]


/-- The success case of the loop with no interleaf: every produced layer
carries the base plan's placements elevated by `cz + k·z_inc`, and no
interleaf placements are recorded. -/
lemma stackLoop_none_spec {req : LayerRequest} {p : LayerPlan}
    (hp : verpalPlanLayer req = .ok p) (oc : List String) (z_inc : ℚ)
    (ch : Option CollisionChecker) (ov : Option (List (String × ApproachConfig)))
    (freq levels : ℕ) :
    ∀ (remaining level : ℕ) (cz : ℚ),
      ∃ L, stackLoop req oc z_inc ch ov none freq levels remaining level cz = .ok (L, []) ∧
        L.length = remaining ∧
        ∀ k, k < remaining →
          ∃ lp, L[k]? = some lp ∧
            lp.placements = p.placements.map (fun q =>
              { q with position :=
                  { q.position with z := q.position.z + (cz + (k : ℚ) * z_inc) } }) := by
  intro remaining
  induction remaining with
  | zero =>
    intro level cz
    exact ⟨[], stackLoop_zero .., by simp⟩
  | succ n ih =>
    intro level cz
    obtain ⟨L', hL', hlen', hk'⟩ := ih (level + 1) (cz + z_inc)
    have hcorner := verpalPlanLayer_corner req (oc.getD (level % oc.length) req.start_corner)
    rw [hp] at hcorner
    have key : ∃ lay,
        stackLoop req oc z_inc ch ov none freq levels (n + 1) level cz = .ok (lay :: L', []) ∧
          lay.placements = p.placements.map (fun q =>
            { q with position := { q.position with z := q.position.z + cz } }) := by
      simp only [stackLoop, hcorner, Except.map, Except.bind, bind, hL', List.nil_append]
      cases ch
      · exact ⟨_, rfl, rfl⟩
      · exact ⟨_, rfl, rfl⟩
    obtain ⟨lay, heq, hplace⟩ := key
    refine ⟨lay :: L', heq, by simp [hlen'], ?_⟩
    intro k hk
    cases k with
    | zero =>
      refine ⟨lay, by simp, ?_⟩
      rw [hplace]
      simp
    | succ m =>
      obtain ⟨lp, hlp, hplace'⟩ := hk' m (by omega)
      refine ⟨lp, by simpa using hlp, ?_⟩
      have harith : cz + z_inc + (m : ℚ) * z_inc = cz + (((m + 1 : ℕ)) : ℚ) * z_inc := by
        push_cast
        ring
      rw [hplace']
      simp only [harith]

/-- The success case of the loop for an arbitrary interleaf option: with a
feasible request every iteration succeeds, so the loop returns exactly one
layer per remaining level (regardless of whether, and how often, separator
sheets are inserted). -/
lemma stackLoop_ok_length {req : LayerRequest} {p : LayerPlan}
    (hp : verpalPlanLayer req = .ok p) (oc : List String) (z_inc : ℚ)
    (ch : Option CollisionChecker) (ov : Option (List (String × ApproachConfig)))
    (il : Option Interleaf) (freq levels : ℕ) :
    ∀ (remaining level : ℕ) (cz : ℚ),
      ∃ L ips, stackLoop req oc z_inc ch ov il freq levels remaining level cz =
          .ok (L, ips) ∧
        L.length = remaining := by
  intro remaining
  induction remaining with
  | zero =>
    intro level cz
    exact ⟨[], [], stackLoop_zero .., rfl⟩
  | succ n ih =>
    intro level cz
    have hcorner := verpalPlanLayer_corner req (oc.getD (level % oc.length) req.start_corner)
    rw [hp] at hcorner
    cases il with
    | none =>
      obtain ⟨L', ips', hL', hlen'⟩ := ih (level + 1) (cz + z_inc)
      have key : ∃ lay, stackLoop req oc z_inc ch ov none freq levels (n + 1) level cz =
          .ok (lay :: L', [] ++ ips') := by
        simp only [stackLoop, hcorner, Except.map, Except.bind, bind, hL']
        cases ch
        · exact ⟨_, rfl⟩
        · exact ⟨_, rfl⟩
      obtain ⟨lay, heq⟩ := key
      exact ⟨lay :: L', [] ++ ips', heq, by simp [hlen']⟩
    | some sheet =>
      by_cases hguard : level + 1 < levels ∧ (level + 1) % freq = 0
      · obtain ⟨L', ips', hL', hlen'⟩ := ih (level + 1) (cz + z_inc + sheet.thickness)
        have key : ∃ lay,
            stackLoop req oc z_inc ch ov (some sheet) freq levels (n + 1) level cz =
              .ok (lay :: L',
                [InterleafPlacement.mk (level + 1) (cz + z_inc) sheet] ++ ips') := by
          simp only [stackLoop, hcorner, Except.map, Except.bind, bind, if_pos hguard, hL']
          cases ch
          · exact ⟨_, rfl⟩
          · exact ⟨_, rfl⟩
        obtain ⟨lay, heq⟩ := key
        exact ⟨lay :: L', [InterleafPlacement.mk (level + 1) (cz + z_inc) sheet] ++ ips',
          heq, by simp [hlen']⟩
      · obtain ⟨L', ips', hL', hlen'⟩ := ih (level + 1) (cz + z_inc)
        have key : ∃ lay,
            stackLoop req oc z_inc ch ov (some sheet) freq levels (n + 1) level cz =
              .ok (lay :: L', [] ++ ips') := by
          simp only [stackLoop, hcorner, Except.map, Except.bind, bind, if_neg hguard, hL']
          cases ch
          · exact ⟨_, rfl⟩
          · exact ⟨_, rfl⟩
        obtain ⟨lay, heq⟩ := key
        exact ⟨lay :: L', [] ++ ips', heq, by simp [hlen']⟩

/-- One successful loop step at a level where the interleaf guard fires:
the sheet is recorded at `cz + z_inc` and the running Z advances by the
sheet thickness on top of `z_inc`. -/
lemma stackLoop_step_guard {req : LayerRequest} {p : LayerPlan}
    (hp : verpalPlanLayer req = .ok p) {oc : List String} {z_inc : ℚ}
    {ch : Option CollisionChecker} {ov : Option (List (String × ApproachConfig))}
    {il : Interleaf} {freq levels n level : ℕ} {cz : ℚ}
    {r : List LayerPlan × List InterleafPlacement}
    (hrec : stackLoop req oc z_inc ch ov (some il) freq levels n (level + 1)
      (cz + z_inc + il.thickness) = .ok r)
    (hguard : level + 1 < levels ∧ (level + 1) % freq = 0) :
    ∃ lay, stackLoop req oc z_inc ch ov (some il) freq levels (n + 1) level cz =
        .ok (lay :: r.1, InterleafPlacement.mk (level + 1) (cz + z_inc) il :: r.2) ∧
      lay.placements = p.placements.map (fun q =>
        { q with position := { q.position with z := q.position.z + cz } }) := by
  have hcorner := verpalPlanLayer_corner req (oc.getD (level % oc.length) req.start_corner)
  rw [hp] at hcorner
  simp only [stackLoop, hcorner, Except.map, Except.bind, bind, if_pos hguard, hrec,
    List.singleton_append]
  cases ch
  · exact ⟨_, rfl, rfl⟩
  · exact ⟨_, rfl, rfl⟩

/-- One successful loop step at a level where the interleaf guard does not
fire: no sheet is recorded and the running Z advances by `z_inc` only. -/
lemma stackLoop_step_noguard {req : LayerRequest} {p : LayerPlan}
    (hp : verpalPlanLayer req = .ok p) {oc : List String} {z_inc : ℚ}
    {ch : Option CollisionChecker} {ov : Option (List (String × ApproachConfig))}
    {il : Interleaf} {freq levels n level : ℕ} {cz : ℚ}
    {r : List LayerPlan × List InterleafPlacement}
    (hrec : stackLoop req oc z_inc ch ov (some il) freq levels n (level + 1)
      (cz + z_inc) = .ok r)
    (hguard : ¬ (level + 1 < levels ∧ (level + 1) % freq = 0)) :
    ∃ lay, stackLoop req oc z_inc ch ov (some il) freq levels (n + 1) level cz =
        .ok (lay :: r.1, r.2) ∧
      lay.placements = p.placements.map (fun q =>
        { q with position := { q.position with z := q.position.z + cz } }) := by
  have hcorner := verpalPlanLayer_corner req (oc.getD (level % oc.length) req.start_corner)
  rw [hp] at hcorner
  simp only [stackLoop, hcorner, Except.map, Except.bind, bind, if_neg hguard, hrec,
    List.nil_append]
  cases ch
  · exact ⟨_, rfl, rfl⟩
  · exact ⟨_, rfl, rfl⟩

/-! ## Ordering-key lemmas -/

lemma keyLe_trans (a b c : ℚ × ℚ × ℕ) (h1 : keyLe a b = true) (h2 : keyLe b c = true) :
    keyLe a c = true := by
  simp only [keyLe, Bool.or_eq_true, Bool.and_eq_true, decide_eq_true_eq] at h1 h2 ⊢
  rcases h1 with h1 | ⟨h1e, h1r⟩
  · rcases h2 with h2 | ⟨h2e, h2r⟩
    · exact Or.inl (lt_trans h1 h2)
    · exact Or.inl (h2e ▸ h1)
  · rcases h2 with h2 | ⟨h2e, h2r⟩
    · exact Or.inl (h1e ▸ h2)
    · refine Or.inr ⟨h1e.trans h2e, ?_⟩
      rcases h1r with h1' | ⟨h1e', h1n⟩
      · rcases h2r with h2' | ⟨h2e', h2n⟩
        · exact Or.inl (lt_trans h1' h2')
        · exact Or.inl (h2e' ▸ h1')
      · rcases h2r with h2' | ⟨h2e', h2n⟩
        · exact Or.inl (h1e' ▸ h2')
        · exact Or.inr ⟨h1e'.trans h2e', le_trans h1n h2n⟩

lemma keyLe_total (a b : ℚ × ℚ × ℕ) : (keyLe a b || keyLe b a) = true := by
  simp only [keyLe, Bool.or_eq_true, Bool.and_eq_true, decide_eq_true_eq]
  rcases lt_trichotomy a.1 b.1 with h | h | h
  · exact Or.inl (Or.inl h)
  · rcases lt_trichotomy a.2.1 b.2.1 with h' | h' | h'
    · exact Or.inl (Or.inr ⟨h, Or.inl h'⟩)
    · rcases le_total a.2.2 b.2.2 with h'' | h''
      · exact Or.inl (Or.inr ⟨h, Or.inr ⟨h', h''⟩⟩)
      · exact Or.inr (Or.inr ⟨h.symm, Or.inr ⟨h'.symm, h''⟩⟩)
    · exact Or.inr (Or.inr ⟨h.symm, Or.inl h'⟩)
  · exact Or.inr (Or.inl h)

/-! ## Folded-maximum lemmas -/

lemma foldlZ_init_le (l : List LayerPlacement) (a : ℚ) :
    a ≤ l.foldl (fun m r => max m r.position.z) a := by
  induction l generalizing a with
  | nil => exact le_refl a
  | cons x xs ih => exact le_trans (le_max_left a x.position.z) (ih (max a x.position.z))

lemma foldlZ_mem_le (l : List LayerPlacement) (a : ℚ) :
    ∀ q ∈ l, q.position.z ≤ l.foldl (fun m r => max m r.position.z) a := by
  induction l generalizing a with
  | nil => intro q hq; simp at hq
  | cons x xs ih =>
    intro q hq
    rcases List.mem_cons.mp hq with rfl | hq
    · exact le_trans (le_max_right a q.position.z) (foldlZ_init_le xs (max a q.position.z))
    · exact ih (max a x.position.z) q hq

lemma foldlZ_attained (l : List LayerPlacement) (a : ℚ) :
    l.foldl (fun m r => max m r.position.z) a = a ∨
      ∃ q ∈ l, l.foldl (fun m r => max m r.position.z) a = q.position.z := by
  induction l generalizing a with
  | nil => exact Or.inl rfl
  | cons x xs ih =>
    rcases ih (max a x.position.z) with h | ⟨q, hq, h⟩
    · rcases max_choice a x.position.z with hm | hm
      · exact Or.inl (by simp only [List.foldl_cons]; rw [h, hm])
      · exact Or.inr ⟨x, List.mem_cons_self .., by simp only [List.foldl_cons]; rw [h, hm]⟩
    · exact Or.inr ⟨q, List.mem_cons_of_mem _ hq, by simp only [List.foldl_cons]; exact h⟩

lemma layerTopZ_mem_le {ps : List LayerPlacement} {q : LayerPlacement} (hq : q ∈ ps) :
    q.position.z ≤ layerTopZ ps := by
  cases ps with
  | nil => simp at hq
  | cons x xs =>
    show q.position.z ≤ xs.foldl (fun m r => max m r.position.z) x.position.z
    rcases List.mem_cons.mp hq with rfl | hq
    · exact foldlZ_init_le xs q.position.z
    · exact foldlZ_mem_le xs x.position.z q hq

lemma layerTopZ_attained {ps : List LayerPlacement} (hps : ps ≠ []) :
    ∃ q ∈ ps, layerTopZ ps = q.position.z := by
  cases ps with
  | nil => exact absurd rfl hps
  | cons x xs =>
    have hdef : layerTopZ (x :: xs) = xs.foldl (fun m r => max m r.position.z) x.position.z := rfl
    rcases foldlZ_attained xs x.position.z with h | ⟨q, hq, h⟩
    · exact ⟨x, List.mem_cons_self .., hdef.trans h⟩
    · exact ⟨q, List.mem_cons_of_mem _ hq, hdef.trans h⟩

/-! ## Folded-minimum lemma for all-equal lists -/

lemma foldl_min_all_eq (l : List ℚ) (v : ℚ) (hall : ∀ x ∈ l, x = v) :
    l.foldl min v = v := by
  induction l with
  | nil => rfl
  | cons x xs ih =>
    have hx : x = v := hall x (List.mem_cons_self ..)
    simp only [List.foldl_cons, hx, min_self]
    exact ih (fun y hy => hall y (List.mem_cons_of_mem _ hy))

lemma min?_all_eq (l : List ℚ) (v : ℚ) (hne : l ≠ []) (hall : ∀ x ∈ l, x = v) :
    l.min? = some v := by
  cases l with
  | nil => exact absurd rfl hne
  | cons x xs =>
    have hx : x = v := hall x (List.mem_cons_self ..)
    have hdef : (x :: xs).min? = some (xs.foldl min x) := rfl
    rw [hdef, Option.some.injEq]
    subst hx
    exact foldl_min_all_eq xs x (fun y hy => hall y (List.mem_cons_of_mem _ hy))

/-! ## max_height fold characterization -/

lemma maxHeight_foldl_spec (layers : List LayerPlan) : ∀ a : ℚ,
    a ≤ layers.foldl
        (fun highest layer =>
          if layer.placements.isEmpty then highest
          else max highest (layerTopZ layer.placements)) a ∧
      (∀ lp ∈ layers, ∀ q ∈ lp.placements,
        q.position.z ≤ layers.foldl
          (fun highest layer =>
            if layer.placements.isEmpty then highest
            else max highest (layerTopZ layer.placements)) a) ∧
      (layers.foldl
          (fun highest layer =>
            if layer.placements.isEmpty then highest
            else max highest (layerTopZ layer.placements)) a = a ∨
        ∃ lp ∈ layers, ∃ q ∈ lp.placements,
          layers.foldl
            (fun highest layer =>
              if layer.placements.isEmpty then highest
              else max highest (layerTopZ layer.placements)) a = q.position.z) := by
  induction layers with
  | nil => exact fun a => ⟨le_refl a, by simp, Or.inl rfl⟩
  | cons lp rest ih =>
    intro a
    by_cases hlp : lp.placements.isEmpty
    · obtain ⟨h1, h2, h3⟩ := ih a
      have hfold : (lp :: rest).foldl
          (fun highest layer =>
            if layer.placements.isEmpty then highest
            else max highest (layerTopZ layer.placements)) a =
          rest.foldl
            (fun highest layer =>
              if layer.placements.isEmpty then highest
              else max highest (layerTopZ layer.placements)) a := by
        simp only [List.foldl_cons, if_pos hlp]
      refine ⟨hfold ▸ h1, ?_, ?_⟩
      · intro l hl q hq
        rcases List.mem_cons.mp hl with rfl | hl
        · rw [List.isEmpty_iff.mp hlp] at hq
          simp at hq
        · exact hfold ▸ h2 l hl q hq
      · rcases h3 with h | ⟨l, hl, q, hq, h⟩
        · exact Or.inl (hfold.trans h)
        · exact Or.inr ⟨l, List.mem_cons_of_mem _ hl, q, hq, hfold.trans h⟩
    · have hne : lp.placements ≠ [] := fun hh => hlp (List.isEmpty_iff.mpr hh)
      obtain ⟨h1, h2, h3⟩ := ih (max a (layerTopZ lp.placements))
      have hfold : (lp :: rest).foldl
          (fun highest layer =>
            if layer.placements.isEmpty then highest
            else max highest (layerTopZ layer.placements)) a =
          rest.foldl
            (fun highest layer =>
              if layer.placements.isEmpty then highest
              else max highest (layerTopZ layer.placements))
            (max a (layerTopZ lp.placements)) := by
        simp only [List.foldl_cons, if_neg hlp]
      refine ⟨hfold ▸ le_trans (le_max_left _ _) h1, ?_, ?_⟩
      · intro l hl q hq
        rcases List.mem_cons.mp hl with rfl | hl
        · exact hfold ▸ le_trans (layerTopZ_mem_le hq) (le_trans (le_max_right _ _) h1)
        · exact hfold ▸ h2 l hl q hq
      · rcases h3 with h | ⟨l, hl, q, hq, h⟩
        · rcases max_choice a (layerTopZ lp.placements) with hm | hm
          · exact Or.inl (hfold.trans (h.trans hm))
          · obtain ⟨q, hq, hqz⟩ := layerTopZ_attained hne
            exact Or.inr ⟨lp, List.mem_cons_self .., q, hq,
              hfold.trans (h.trans (hm.trans hqz))⟩
        · exact Or.inr ⟨l, List.mem_cons_of_mem _ hl, q, hq, hfold.trans h⟩

/-! ## Concrete scenario evaluations -/

lemma sample_overhang_x : LayerRequest.overhang_x sampleRequest = 0 := rfl

lemma sample_overhang_y : LayerRequest.overhang_y sampleRequest = 0 := rfl

lemma sample_usableWidth : usableWidth sampleRequest = 1200 := by
  norm_num [usableWidth, sampleRequest, samplePallet, LayerRequest.overhang_x]

lemma sample_usableDepth : usableDepth sampleRequest = 800 := by
  norm_num [usableDepth, sampleRequest, samplePallet, LayerRequest.overhang_y]

lemma sample_orientedWidth0 : orientedWidth sampleRequest 0 = 200 := rfl

lemma sample_orientedDepth0 : orientedDepth sampleRequest 0 = 150 := rfl

lemma sample_orientedWidth90 : orientedWidth sampleRequest 90 = 150 := by
  norm_num [orientedWidth, sampleRequest, sampleBox]

lemma sample_orientedDepth90 : orientedDepth sampleRequest 90 = 200 := by
  norm_num [orientedDepth, sampleRequest, sampleBox]

lemma sample_cols0 : gridColumns sampleRequest 0 = 6 := by
  have h : ⌊(1200 : ℚ) / 200⌋ = 6 := by norm_num
  simp [gridColumns, sample_usableWidth, sample_orientedWidth0, h]

lemma sample_rows0 : gridRows sampleRequest 0 = 5 := by
  have h : ⌊(800 : ℚ) / 150⌋ = 5 := by
    rw [Int.floor_eq_iff]
    norm_num
  simp [gridRows, sample_usableDepth, sample_orientedDepth0, h]

lemma sample_cols90 : gridColumns sampleRequest 90 = 8 := by
  have h : ⌊(1200 : ℚ) / 150⌋ = 8 := by norm_num
  simp [gridColumns, sample_usableWidth, sample_orientedWidth90, h]

lemma sample_rows90 : gridRows sampleRequest 90 = 4 := by
  have h : ⌊(800 : ℚ) / 200⌋ = 4 := by norm_num
  simp [gridRows, sample_usableDepth, sample_orientedDepth90, h]

lemma sample_nonempty0 : (planOrientation sampleRequest 0).placements ≠ [] := by
  rw [Ne, planOrientation_placements_empty_iff, sample_cols0, sample_rows0]
  norm_num

lemma sample_nonempty90 : (planOrientation sampleRequest 90).placements ≠ [] := by
  rw [Ne, planOrientation_placements_empty_iff, sample_cols90, sample_rows90]
  norm_num

lemma sample_fill0 : (planOrientation sampleRequest 0).fillRate = 15 / 16 := by
  rw [planOrientation_nonempty_eq (by rw [sample_cols0, sample_rows0]; norm_num)]
  rw [sample_cols0, sample_rows0, sample_usableWidth, sample_usableDepth,
    sample_orientedWidth0, sample_orientedDepth0]
  norm_num

lemma sample_fill90 : (planOrientation sampleRequest 90).fillRate = 1 := by
  rw [planOrientation_nonempty_eq (by rw [sample_cols90, sample_rows90]; norm_num)]
  rw [sample_cols90, sample_rows90, sample_usableWidth, sample_usableDepth,
    sample_orientedWidth90, sample_orientedDepth90]
  norm_num

lemma sample_planOrientation_NE (o : ℤ) :
    planOrientation sampleRequestNE o = planOrientation sampleRequest o := rfl

lemma sample_planLayer : planLayer sampleRequest = .ok (planOrientation sampleRequest 90) := by
  rw [planLayer_BOTH rfl]
  rw [if_neg (by simp [List.isEmpty_iff, sample_nonempty0]),
    if_neg (by simp [List.isEmpty_iff, sample_nonempty90]),
    if_pos (by rw [gt_iff_lt, sample_fill0, sample_fill90]; norm_num)]

lemma sample_verpalPlanLayer :
    verpalPlanLayer sampleRequest = .ok (verpalPlanOrientation sampleRequest 90) := by
  rw [verpalPlanLayer_BOTH rfl]
  rw [if_neg (by simp [List.isEmpty_iff, ne_eq, verpalPlanOrientation_empty_iff,
      sample_nonempty0]),
    if_neg (by simp [List.isEmpty_iff, ne_eq, verpalPlanOrientation_empty_iff,
      sample_nonempty90]),
    if_pos (by rw [gt_iff_lt, verpalPlanOrientation_fillRate, verpalPlanOrientation_fillRate,
      sample_fill0, sample_fill90]; norm_num)]

lemma sample_verpalPlanLayer_NE :
    verpalPlanLayer sampleRequestNE = .ok (verpalPlanOrientation sampleRequestNE 90) := by
  rw [verpalPlanLayer_BOTH rfl]
  rw [if_neg (by simp [List.isEmpty_iff, ne_eq, verpalPlanOrientation_empty_iff,
      sample_planOrientation_NE, sample_nonempty0]),
    if_neg (by simp [List.isEmpty_iff, ne_eq, verpalPlanOrientation_empty_iff,
      sample_planOrientation_NE, sample_nonempty90]),
    if_pos (by rw [gt_iff_lt, verpalPlanOrientation_fillRate, verpalPlanOrientation_fillRate,
      sample_planOrientation_NE, sample_planOrientation_NE, sample_fill0, sample_fill90]; norm_num)]

lemma sample_base90_placements :
    (planOrientation sampleRequest 90).placements =
      (gridCells 4 8).map (cellPlacement sampleRequest 90 0 0 150 200 4 8) := by
  rw [planOrientation_nonempty_eq (by rw [sample_cols90, sample_rows90]; norm_num)]
  simp only [sample_cols90, sample_rows90, sample_usableWidth, sample_usableDepth,
    sample_orientedWidth90, sample_orientedDepth90]
  norm_num

lemma sample_p90_getElem (i : ℕ) (hi : i < 32) :
    (planOrientation sampleRequest 90).placements[i]? =
      some (cellPlacement sampleRequest 90 0 0 150 200 4 8 (i / 8, i % 8)) := by
  rw [sample_base90_placements, List.getElem?_map]
  have h : (i / 8) * 8 + i % 8 = i := by omega
  have hg := gridCells_getElem 4 8 (i / 8) (i % 8) (by omega) (by omega)
  rw [h] at hg
  rw [hg]
  rfl

lemma cell_x_ne_600 (c : ℕ) : (0 : ℚ) + (c : ℚ) * 150 + 150 / 2 ≠ 600 := by
  intro h
  have h2 : ((2 * c : ℕ) : ℚ) = 7 := by push_cast; linarith
  have h3 : 2 * c = 7 := by exact_mod_cast h2
  omega

lemma sample_transforms_differ (pos : Vector3) (hx : pos.x ≠ 600) :
    ReferenceFrame.transform {} pos samplePallet 0 0 ≠
      frameNE.transform pos samplePallet 0 0 := by
  intro h
  have hxx := congrArg Vector3.x h
  simp only [ReferenceFrame.transform, ReferenceFrame.originPoint, XAxis.sign, YAxis.sign,
    frameNE, samplePallet] at hxx
  norm_num at hxx
  exact hx (by linarith)

/-! ## Overlap-check lemmas -/

lemma pairsAfter_map {α β : Type} (f : α → β) (l : List α) :
    pairsAfter (l.map f) = (pairsAfter l).map (fun pr => (f pr.1, f pr.2)) := by
  induction l with
  | nil => rfl
  | cons x xs ih => simp [pairsAfter, ih, List.map_map, Function.comp]

lemma usableCoordinates_transform (req : LayerRequest) (q : LayerPlacement) :
    usableCoordinates
      { q with position :=
          req.reference_frame.transform q.position req.pallet req.overhang_x req.overhang_y }
      req = q.position := by
  show req.reference_frame.restore
    (req.reference_frame.transform q.position req.pallet req.overhang_x req.overhang_y)
    req.pallet req.overhang_x req.overhang_y = q.position
  exact restore_transform ..

lemma planOrientation_frame (req : LayerRequest) (rf : ReferenceFrame) (o : ℤ) :
    planOrientation { req with reference_frame := rf } o = planOrientation req o := rfl

lemma boxFootprint_frame (plan : LayerPlan) (req : LayerRequest) (rf : ReferenceFrame) :
    boxFootprint plan { req with reference_frame := rf } = boxFootprint plan req := rfl

/-- The overlap flags computed for a frame-aware verpal layer are exactly
the flags of the canonical (pre-transform) placements: `restore` undoes
`transform` before the AABB test, so the reference frame drops out. -/
lemma checkOverlap_verpal_frame_free (checker : CollisionChecker) (req : LayerRequest) (o : ℤ) :
    checkOverlap checker (verpalPlanOrientation req o) req =
      (pairsAfter (planOrientation req o).placements).filterMap (fun pr =>
        if overlaps checker pr.1.position pr.2.position
            (boxFootprint (planOrientation req o) req).1
            (boxFootprint (planOrientation req o) req).2 then
          some ⟨"Collision between " ++ toString pr.1.sequence_index
            ++ " and " ++ toString pr.2.sequence_index⟩
        else none) := by
  simp only [checkOverlap]
  rw [verpalPlanOrientation_placements, List.map_map, pairsAfter_map, List.filterMap_map]
  congr 1
  funext pr
  have h1 := usableCoordinates_transform req pr.1
  have h2 := usableCoordinates_transform req pr.2
  have hfp : boxFootprint (verpalPlanOrientation req o) req =
      boxFootprint (planOrientation req o) req := rfl
  simp only [Function.comp, h1, h2, hfp]

lemma tol_usableA : usableCoordinates tolPlacementA sampleRequest = ⟨100, 75, 0⟩ := by
  simp only [usableCoordinates, ReferenceFrame.restore, ReferenceFrame.originPoint,
    XAxis.sign, YAxis.sign, sampleRequest, samplePallet, tolPlacementA,
    LayerRequest.overhang_x, LayerRequest.overhang_y]
  norm_num

lemma tol_usableB :
    usableCoordinates tolPlacementB sampleRequest = ⟨100 + 399999 / 2000, 75, 0⟩ := by
  simp only [usableCoordinates, ReferenceFrame.restore, ReferenceFrame.originPoint,
    XAxis.sign, YAxis.sign, sampleRequest, samplePallet, tolPlacementB,
    LayerRequest.overhang_x, LayerRequest.overhang_y]
  norm_num

lemma tol_gap_abs : |(100 : ℚ) - (100 + 399999 / 2000)| = 399999 / 2000 := by
  rw [show (100 : ℚ) - (100 + 399999 / 2000) = -(399999 / 2000) by ring, abs_neg,
    abs_of_nonneg (by norm_num)]

lemma tol_not_overlapping :
    ¬ overlaps defaultChecker ⟨100, 75, 0⟩ ⟨100 + 399999 / 2000, 75, 0⟩ 200 150 := by
  have hcl : defaultChecker.clearance = 1 / 1000 := rfl
  rw [overlaps, not_and_or]
  left
  rw [not_lt, hcl]
  show (200 : ℚ) - 1 / 1000 ≤ |(100 : ℚ) - (100 + 399999 / 2000)|
  rw [tol_gap_abs]
  norm_num

lemma tol_not_flagged : checkOverlap defaultChecker tolPlan sampleRequest = [] := by
  have hfoot : boxFootprint tolPlan sampleRequest = (200, 150) := rfl
  have hplace : tolPlan.placements = [tolPlacementA, tolPlacementB] := rfl
  simp only [checkOverlap, hfoot, hplace, List.map_cons, List.map_nil, tol_usableA,
    tol_usableB, pairsAfter, List.nil_append, List.append_nil, List.filterMap_cons,
    List.filterMap_nil]
  simp [tol_not_overlapping]

/-! ## Claim theorems -/

/-- C1: for every validly constructed ReferenceFrame (all 5 origins × E/W ×
N/S, which is the whole `ReferenceFrame` type), every pallet, every pair of
overhang values and every position `p`, `restore (transform p) = p` and
`transform (restore p) = p` exactly over the exact rational arithmetic of
this embedding, with the z coordinate passed through unchanged by both
directions. -/
theorem claim_C1 (rf : ReferenceFrame) (pallet : Pallet)
    (overhang_x overhang_y : ℚ) (p : Vector3) :
    rf.restore (rf.transform p pallet overhang_x overhang_y) pallet overhang_x overhang_y = p ∧
    rf.transform (rf.restore p pallet overhang_x overhang_y) pallet overhang_x overhang_y = p ∧
    (rf.transform p pallet overhang_x overhang_y).z = p.z ∧
    (rf.restore p pallet overhang_x overhang_y).z = p.z :=
  ⟨restore_transform .., transform_restore .., rfl, rfl⟩

/-- C9: `ordered_placements` returns a permutation of the stored
placements (the plan value itself is untouched — the function is pure),
sorted lexicographically by the key (y negated when the start corner
contains 'N', then x negated when it contains 'E', then ascending
`sequence_index`). -/
theorem claim_C9 (plan : LayerPlan) :
    (LayerPlan.ordered_placements plan).Perm plan.placements ∧
    List.Pairwise (fun a b =>
      keyLe
        (orderedKey (plan.start_corner.toUpper.contains 'E')
          (plan.start_corner.toUpper.contains 'N') a)
        (orderedKey (plan.start_corner.toUpper.contains 'E')
          (plan.start_corner.toUpper.contains 'N') b) = true)
      (LayerPlan.ordered_placements plan) := by
  simp only [LayerPlan.ordered_placements]
  constructor
  · apply List.mergeSort_perm
  · refine List.sorted_mergeSort ?_ ?_ plan.placements
    · intro a b c hab hbc
      exact keyLe_trans _ _ _ hab hbc
    · intro a b
      exact keyLe_total _ _

/-- C10: `max_height` is an upper bound of every placement's z over all
layers, is attained by some placement unless it is `0`, is never below
`0` (even when every placement z is negative), and is `0` when no layer
has any placement; the box height is not added (the value, when nonzero,
is literally some placement's z, not the physical stack top). -/
theorem claim_C10 (seq : LayerSequencePlan) :
    0 ≤ LayerSequencePlan.max_height seq ∧
    (∀ lp ∈ seq.layers, ∀ q ∈ lp.placements,
      q.position.z ≤ LayerSequencePlan.max_height seq) ∧
    (LayerSequencePlan.max_height seq = 0 ∨
      ∃ lp ∈ seq.layers, ∃ q ∈ lp.placements,
        LayerSequencePlan.max_height seq = q.position.z) ∧
    ((∀ lp ∈ seq.layers, lp.placements = []) → LayerSequencePlan.max_height seq = 0) := by
  obtain ⟨h1, h2, h3⟩ := maxHeight_foldl_spec seq.layers 0
  have hdef : LayerSequencePlan.max_height seq = seq.layers.foldl
      (fun highest layer =>
        if layer.placements.isEmpty then highest
        else max highest (layerTopZ layer.placements)) 0 := rfl
  refine ⟨hdef ▸ h1, fun lp hlp q hq => hdef ▸ h2 lp hlp q hq, ?_, ?_⟩
  · rcases h3 with h | ⟨lp, hlp, q, hq, h⟩
    · exact Or.inl (hdef.trans h)
    · exact Or.inr ⟨lp, hlp, q, hq, hdef.trans h⟩
  · intro hall
    rcases h3 with h | ⟨lp, hlp, q, hq, h⟩
    · exact hdef.trans h
    · rw [hall lp hlp] at hq
      simp at hq

/-- C3 counterexample: two placements whose restored centers are
`199.9995 mm` apart on x (strictly less than the 200 mm box width, and
`0 < 150` apart on y), yet the overlap check flags nothing, because the
code compares against `width − clearance = 199.999 mm`, not `width`.  So
"centers less than one box footprint apart on both axes are flagged" is
false as stated. -/
theorem claim_C3_counterexample :
    (|(usableCoordinates tolPlacementA sampleRequest).x -
        (usableCoordinates tolPlacementB sampleRequest).x| < 200 ∧
      |(usableCoordinates tolPlacementA sampleRequest).y -
        (usableCoordinates tolPlacementB sampleRequest).y| < 150) ∧
    boxFootprint tolPlan sampleRequest = (200, 150) ∧
    tolPlan.placements = [tolPlacementA, tolPlacementB] ∧
    defaultChecker.clearance = 1 / 1000 ∧
    checkOverlap defaultChecker tolPlan sampleRequest = [] := by
  refine ⟨⟨?_, ?_⟩, rfl, rfl, rfl, tol_not_flagged⟩
  · rw [tol_usableA, tol_usableB]
    show |(100 : ℚ) - (100 + 399999 / 2000)| < 200
    rw [tol_gap_abs]
    norm_num
  · rw [tol_usableA, tol_usableB]
    show |(75 : ℚ) - 75| < 150
    norm_num

/-- C3 (amended): a pair of placements is flagged by the overlap check iff
their restored centers are within the oriented footprint *minus the
checker's clearance* (default `1e-3` mm) on both axes; and the flagging is
identical regardless of which valid ReferenceFrame the request carries,
because `restore` undoes `transform` before the comparison, so the flags
of a frame-aware layer equal the flags of its canonical grid. -/
theorem claim_C3 (checker : CollisionChecker) (rf rf2 : ReferenceFrame)
    (pallet : Pallet) (ox oy w d : ℚ) (a b : Vector3)
    (req : LayerRequest) (o : ℤ) :
    (overlaps checker
        (rf.restore (rf.transform a pallet ox oy) pallet ox oy)
        (rf.restore (rf.transform b pallet ox oy) pallet ox oy) w d ↔
      (|a.x - b.x| < w - checker.clearance ∧ |a.y - b.y| < d - checker.clearance)) ∧
    (checkOverlap checker (verpalPlanOrientation { req with reference_frame := rf } o)
        { req with reference_frame := rf } =
      checkOverlap checker (verpalPlanOrientation { req with reference_frame := rf2 } o)
        { req with reference_frame := rf2 }) := by
  constructor
  · rw [restore_transform, restore_transform]
    exact Iff.rfl
  · rw [checkOverlap_verpal_frame_free, checkOverlap_verpal_frame_free]
    simp only [planOrientation_frame, boxFootprint_frame]

/-- C8: `plan_layer` fails exactly when every allowed orientation yields
zero placements; an orientation yields zero placements exactly when its
grid has zero columns or zero rows; and when the layer planner fails
inside `stack_layers` (with the configuration guards satisfied), the very
same error propagates out of `stack_layers`, which returns no partial
sequence (the `Except` is an error, carrying no layers). -/
theorem claim_C8 (req : LayerRequest) (levels : ℕ) (corners : Option (List String))
    (z_step : Option ℚ) (checker : Option CollisionChecker)
    (overrides : Option (List (String × ApproachConfig))) (interleaf : Option Interleaf)
    (freq : ℕ) :
    ((∃ e, planLayer req = .error e) ↔
      ∀ o ∈ req.allowed_orientations, (planOrientation req o).placements = []) ∧
    (∀ o : ℤ, (planOrientation req o).placements = [] ↔
      (gridColumns req o = 0 ∨ gridRows req o = 0)) ∧
    (∀ e, planLayer req = .error e →
      1 ≤ levels → 0 < z_step.getD req.box.dimensions.height → 1 ≤ freq →
      stackLayers req levels corners z_step checker overrides interleaf freq = .error e) := by
  refine ⟨planLayer_error_iff req, planOrientation_placements_empty_iff req, ?_⟩
  intro e he hlev hz hfreq
  have hv : verpalPlanLayer req = .error e :=
    (verpalPlanLayer_error_iff_planLayer req e).mpr he
  obtain ⟨n, rfl⟩ : ∃ n, levels = n + 1 := ⟨levels - 1, by omega⟩
  simp only [stackLayers, if_neg (by omega : ¬ (n + 1 = 0)),
    if_neg (not_le.mpr hz), if_neg (by omega : ¬ (freq = 0)),
    Except.bind, bind]
  rw [stackLoop_error hv]

/-- C4: for every request and orientation whose grid is non-empty
(`columns ≥ 1` and `rows ≥ 1`), the planner emits exactly
`columns × rows` placements; the placement at row-major index
`row·columns + col` is centered at
`(offset_x + col·w + w/2, offset_y + row·d + d/2, pickup_offset.z)` with
`offset = (usable − count·dim)/2`; and the placement list does not depend
on `start_corner`. -/
theorem claim_C4 (req : LayerRequest) (o : ℤ)
    (hc : 1 ≤ gridColumns req o) (hr : 1 ≤ gridRows req o) :
    (planOrientation req o).placements.length = gridColumns req o * gridRows req o ∧
    (∀ row col, row < gridRows req o → col < gridColumns req o →
      (planOrientation req o).placements[row * gridColumns req o + col]? =
        some
          { box_id := req.box.id
          , position :=
              ⟨ (usableWidth req - (gridColumns req o : ℚ) * orientedWidth req o) / 2
                  + (col : ℚ) * orientedWidth req o + orientedWidth req o / 2
              , (usableDepth req - (gridRows req o : ℚ) * orientedDepth req o) / 2
                  + (row : ℚ) * orientedDepth req o + orientedDepth req o / 2
              , req.pickup_offset.z ⟩
          , rotation := o
          , block := blockName row col (gridRows req o) (gridColumns req o)
          , sequence_index := row * gridColumns req o + col }) ∧
    (∀ s, (planOrientation { req with start_corner := s } o).placements =
      (planOrientation req o).placements) := by
  have hne : ¬ (gridColumns req o = 0 ∨ gridRows req o = 0) := by omega
  have hpl : (planOrientation req o).placements =
      (gridCells (gridRows req o) (gridColumns req o)).map
        (cellPlacement req o
          ((usableWidth req - (gridColumns req o : ℚ) * orientedWidth req o) / 2)
          ((usableDepth req - (gridRows req o : ℚ) * orientedDepth req o) / 2)
          (orientedWidth req o) (orientedDepth req o)
          (gridRows req o) (gridColumns req o)) := by
    rw [planOrientation_nonempty_eq hne]
  refine ⟨?_, ?_, ?_⟩
  · rw [planOrientation_length, Nat.mul_comm]
  · intro row col hrow hcol
    rw [hpl, List.getElem?_map,
      gridCells_getElem (gridRows req o) (gridColumns req o) row col hrow hcol]
    rfl
  · intro s
    rw [planOrientation_corner]

/-- C4 witness: the spec's example — pallet 1200 × 800 mm with overhang 0
and a 200 × 150 mm box at orientation 0 — yields columns = 6, rows = 5
and fill ratio `15/16 = 0.9375`, and satisfies the C4 grid layout. -/
theorem claim_C4_witness :
    gridColumns sampleRequest 0 = 6 ∧ gridRows sampleRequest 0 = 5 ∧
    (planOrientation sampleRequest 0).fillRate = 15 / 16 ∧
    ((planOrientation sampleRequest 0).placements.length =
        gridColumns sampleRequest 0 * gridRows sampleRequest 0 ∧
      (∀ row col, row < gridRows sampleRequest 0 → col < gridColumns sampleRequest 0 →
        (planOrientation sampleRequest 0).placements[row * gridColumns sampleRequest 0 + col]? =
          some
            { box_id := sampleRequest.box.id
            , position :=
                ⟨ (usableWidth sampleRequest
                      - (gridColumns sampleRequest 0 : ℚ) * orientedWidth sampleRequest 0) / 2
                    + (col : ℚ) * orientedWidth sampleRequest 0
                    + orientedWidth sampleRequest 0 / 2
                , (usableDepth sampleRequest
                      - (gridRows sampleRequest 0 : ℚ) * orientedDepth sampleRequest 0) / 2
                    + (row : ℚ) * orientedDepth sampleRequest 0
                    + orientedDepth sampleRequest 0 / 2
                , sampleRequest.pickup_offset.z ⟩
            , rotation := 0
            , block := blockName row col (gridRows sampleRequest 0) (gridColumns sampleRequest 0)
            , sequence_index := row * gridColumns sampleRequest 0 + col }) ∧
      (∀ s, (planOrientation { sampleRequest with start_corner := s } 0).placements =
        (planOrientation sampleRequest 0).placements)) :=
  ⟨sample_cols0, sample_rows0, sample_fill0,
    claim_C4 sampleRequest 0 (by rw [sample_cols0]; norm_num) (by rw [sample_rows0]; norm_num)⟩

lemma planOrientation_fill_nonempty {req : LayerRequest} {o : ℤ}
    (hne : ¬ (gridColumns req o = 0 ∨ gridRows req o = 0)) :
    (planOrientation req o).fillRate =
      ((gridColumns req o * gridRows req o : ℕ) : ℚ)
        * orientedWidth req o * orientedDepth req o
        / (usableWidth req * usableDepth req) := by
  rw [planOrientation_nonempty_eq hne]

/-- C5: whenever at least one allowed orientation yields placements,
`plan_layer` returns a non-empty candidate of maximal fill ratio among the
non-empty candidates; in BOTH mode ties keep orientation 0 (the first
evaluated) and orientation 90 wins exactly when it strictly improves; in
particular when orientation 90 fits strictly more boxes (with positive box
and usable dimensions) the returned plan has orientation 90. -/
theorem claim_C5 (req : LayerRequest)
    (hfeas : ∃ o ∈ req.allowed_orientations, (planOrientation req o).placements ≠ []) :
    ∃ p, planLayer req = .ok p ∧ p.placements ≠ [] ∧
      (∃ o ∈ req.allowed_orientations, p = planOrientation req o) ∧
      (∀ o ∈ req.allowed_orientations, (planOrientation req o).placements ≠ [] →
        (planOrientation req o).fillRate ≤ p.fillRate) ∧
      (req.orientation_mode = .BOTH → (planOrientation req 0).placements ≠ [] →
        (planOrientation req 90).fillRate ≤ (planOrientation req 0).fillRate →
        p = planOrientation req 0) ∧
      (req.orientation_mode = .BOTH → (planOrientation req 90).placements ≠ [] →
        ((planOrientation req 0).placements = [] ∨
          (planOrientation req 0).fillRate < (planOrientation req 90).fillRate) →
        p = planOrientation req 90) ∧
      (req.orientation_mode = .BOTH →
        0 < req.box.dimensions.width → 0 < req.box.dimensions.depth →
        0 < usableWidth req → 0 < usableDepth req →
        gridColumns req 0 * gridRows req 0 < gridColumns req 90 * gridRows req 90 →
        p.orientation = 90) := by
  cases hcase : planLayer req with
  | error e =>
    exfalso
    obtain ⟨o, ho, hne⟩ := hfeas
    exact hne ((planLayer_error_iff req).mp ⟨e, hcase⟩ o ho)
  | ok p =>
    obtain ⟨hmem, hnonempty, hmax⟩ := planLayer_ok_dest hcase
    refine ⟨p, rfl, hnonempty, hmem, hmax, ?_, ?_, ?_⟩
    · intro hm h0ne hle
      rcases planLayer_BOTH_cases hm with ⟨h0, _, hp⟩ | ⟨h0, _, hp⟩ | ⟨_, _, hp⟩ |
        ⟨_, _, ⟨hf, hp⟩ | ⟨hf, hp⟩⟩
      · exact absurd h0 h0ne
      · exact absurd h0 h0ne
      · rw [hcase] at hp
        simpa using hp
      · exact absurd hf (not_lt.mpr hle)
      · rw [hcase] at hp
        simpa using hp
    · intro hm h90ne hcond
      rcases planLayer_BOTH_cases hm with ⟨_, h90, hp⟩ | ⟨_, _, hp⟩ | ⟨h0, h90, hp⟩ |
        ⟨h0, _, ⟨hf, hp⟩ | ⟨hf, hp⟩⟩
      · exact absurd h90 h90ne
      · rw [hcase] at hp
        simpa using hp
      · exact absurd h90 h90ne
      · rw [hcase] at hp
        simpa using hp
      · rcases hcond with hc0 | hlt
        · exact absurd hc0 h0
        · exact absurd hlt (not_lt.mpr hf)
    · intro hm hw hd huw hud hcount
      have h90pos : 0 < gridColumns req 90 * gridRows req 90 := by omega
      have h90ne : (planOrientation req 90).placements ≠ [] := by
        rw [Ne, planOrientation_placements_empty_iff]
        intro hor
        rcases hor with h | h <;> simp [h] at h90pos
      by_cases h0e : (planOrientation req 0).placements = []
      · rcases planLayer_BOTH_cases hm with ⟨_, h90, hp⟩ | ⟨_, _, hp⟩ | ⟨h0, _, _⟩ |
          ⟨h0, _, _⟩
        · exact absurd h90 h90ne
        · rw [hcase] at hp
          have hpc : p = planOrientation req 90 := by simpa using hp
          rw [hpc, planOrientation_orientation]
        · exact absurd h0e h0
        · exact absurd h0e h0
      · have hne0 : ¬ (gridColumns req 0 = 0 ∨ gridRows req 0 = 0) :=
          fun h => h0e ((planOrientation_placements_empty_iff req 0).mpr h)
        have hne90 : ¬ (gridColumns req 90 = 0 ∨ gridRows req 90 = 0) :=
          fun h => h90ne ((planOrientation_placements_empty_iff req 90).mpr h)
        have hfill : (planOrientation req 0).fillRate < (planOrientation req 90).fillRate := by
          rw [planOrientation_fill_nonempty hne0, planOrientation_fill_nonempty hne90]
          have hw0 : orientedWidth req 0 = req.box.dimensions.width := rfl
          have hd0 : orientedDepth req 0 = req.box.dimensions.depth := rfl
          have hw90 : orientedWidth req 90 = req.box.dimensions.depth := by
            norm_num [orientedWidth]
          have hd90 : orientedDepth req 90 = req.box.dimensions.width := by
            norm_num [orientedDepth]
          rw [hw0, hd0, hw90, hd90]
          have hA : 0 < usableWidth req * usableDepth req := mul_pos huw hud
          rw [div_lt_div_iff₀ hA hA]
          have hcast : ((gridColumns req 0 * gridRows req 0 : ℕ) : ℚ) <
              ((gridColumns req 90 * gridRows req 90 : ℕ) : ℚ) := by exact_mod_cast hcount
          have hkey := mul_lt_mul_of_pos_right hcast (mul_pos (mul_pos hw hd) hA)
          nlinarith [hkey]
        rcases planLayer_BOTH_cases hm with ⟨h0, _, _⟩ | ⟨h0, _, _⟩ | ⟨_, h90, _⟩ |
          ⟨_, _, ⟨hf, hp⟩ | ⟨hf, hp⟩⟩
        · exact absurd h0 h0e
        · exact absurd h0 h0e
        · exact absurd h90 h90ne
        · rw [hcase] at hp
          have hpc : p = planOrientation req 90 := by simpa using hp
          rw [hpc, planOrientation_orientation]
        · exact absurd hfill (not_lt.mpr hf)

/-- C5 witness: at the example request (mode BOTH, 1200 × 800 pallet,
200 × 150 box) orientation 0 yields placements, so C5 applies; here
orientation 90 packs 32 > 30 boxes and indeed wins. -/
theorem claim_C5_witness :
    ∃ p, planLayer sampleRequest = .ok p ∧ p.placements ≠ [] ∧
      (∃ o ∈ sampleRequest.allowed_orientations, p = planOrientation sampleRequest o) ∧
      (∀ o ∈ sampleRequest.allowed_orientations,
        (planOrientation sampleRequest o).placements ≠ [] →
        (planOrientation sampleRequest o).fillRate ≤ p.fillRate) ∧
      (sampleRequest.orientation_mode = .BOTH →
        (planOrientation sampleRequest 0).placements ≠ [] →
        (planOrientation sampleRequest 90).fillRate ≤
          (planOrientation sampleRequest 0).fillRate →
        p = planOrientation sampleRequest 0) ∧
      (sampleRequest.orientation_mode = .BOTH →
        (planOrientation sampleRequest 90).placements ≠ [] →
        ((planOrientation sampleRequest 0).placements = [] ∨
          (planOrientation sampleRequest 0).fillRate <
            (planOrientation sampleRequest 90).fillRate) →
        p = planOrientation sampleRequest 90) ∧
      (sampleRequest.orientation_mode = .BOTH →
        0 < sampleRequest.box.dimensions.width → 0 < sampleRequest.box.dimensions.depth →
        0 < usableWidth sampleRequest → 0 < usableDepth sampleRequest →
        gridColumns sampleRequest 0 * gridRows sampleRequest 0 <
          gridColumns sampleRequest 90 * gridRows sampleRequest 90 →
        p.orientation = 90) :=
  claim_C5 sampleRequest
    ⟨0, by simp [LayerRequest.allowed_orientations, sampleRequest], sample_nonempty0⟩

/-- C6: with `levels ≥ 1`, a strictly positive z-step (explicit or
defaulted to the box height), `interleaf_frequency ≥ 1` and a feasible
request, every call to `stack_layers` — with or without a configured
interleaf — returns exactly `levels` layers; and when no interleaf is
configured, level `k`'s placements all sit at
`pickup_offset.z + k·z_step`, so the minimum placement Z of consecutive
levels strictly increases by exactly `z_step`. -/
theorem claim_C6 (req : LayerRequest) (levels : ℕ) (corners : Option (List String))
    (z_step : Option ℚ) (checker : Option CollisionChecker)
    (overrides : Option (List (String × ApproachConfig)))
    (interleaf : Option Interleaf) (freq : ℕ) (p : LayerPlan)
    (hlev : 1 ≤ levels) (hz : 0 < z_step.getD req.box.dimensions.height)
    (hfreq : 1 ≤ freq) (hp : verpalPlanLayer req = .ok p) :
    ∃ seq, stackLayers req levels corners z_step checker overrides interleaf freq = .ok seq ∧
      seq.layers.length = levels ∧
      (interleaf = none →
        seq.interleaves = [] ∧
        ∀ k : ℕ, k < levels → ∃ lp, seq.layers[k]? = some lp ∧
          lp.placements ≠ [] ∧
          (∀ q ∈ lp.placements, q.position.z =
            req.pickup_offset.z + (k : ℚ) * z_step.getD req.box.dimensions.height) ∧
          (lp.placements.map (fun q => q.position.z)).min? =
            some (req.pickup_offset.z +
              (k : ℚ) * z_step.getD req.box.dimensions.height)) := by
  obtain ⟨-, hpne⟩ := verpalPlanLayer_ok_dest hp
  cases interleaf with
  | none =>
    obtain ⟨L, hloop, hlen, hk⟩ := stackLoop_none_spec hp (orderedCorners req corners)
      (z_step.getD req.box.dimensions.height) checker overrides freq levels levels 0 0
    refine ⟨LayerSequencePlan.mk L
        ([ ("levels", toString levels)
         , ("z_step", toString (z_step.getD req.box.dimensions.height))
         , ("corners", String.intercalate "," (orderedCorners req corners))
         , ("reference_origin", Origin.token req.reference_frame.origin)
         , ("reference_axes", ReferenceFrame.axes_token req.reference_frame) ] ++ [])
        [], ?_, hlen, ?_⟩
    case refine_1 =>
      simp only [stackLayers, if_neg (by omega : ¬ (levels = 0)),
        if_neg (not_le.mpr hz), if_neg (by omega : ¬ (freq = 0)),
        Except.bind, bind]
      rw [hloop]
    case refine_2 =>
      intro h0
      refine ⟨rfl, ?_⟩
      intro k hkl
      obtain ⟨lp, hlp, hplace⟩ := hk k (by omega)
      refine ⟨lp, hlp, ?_, ?_, ?_⟩
      · rw [hplace]
        simp [hpne]
      · intro q hq
        rw [hplace] at hq
        simp only [List.mem_map] at hq
        obtain ⟨q0, hq0, rfl⟩ := hq
        have hz0 := verpalPlanLayer_ok_z hp hq0
        simp only [hz0]
        ring
      · apply min?_all_eq
        · rw [hplace]
          simp [hpne]
        · intro x hx
          simp only [List.mem_map] at hx
          obtain ⟨q, hq, rfl⟩ := hx
          rw [hplace] at hq
          simp only [List.mem_map] at hq
          obtain ⟨q0, hq0, rfl⟩ := hq
          have hz0 := verpalPlanLayer_ok_z hp hq0
          simp only [hz0]
          ring
  | some il =>
    obtain ⟨L, ips, hloop, hlen⟩ := stackLoop_ok_length hp (orderedCorners req corners)
      (z_step.getD req.box.dimensions.height) checker overrides (some il) freq levels
      levels 0 0
    refine ⟨LayerSequencePlan.mk L
        ([ ("levels", toString levels)
         , ("z_step", toString (z_step.getD req.box.dimensions.height))
         , ("corners", String.intercalate "," (orderedCorners req corners))
         , ("reference_origin", Origin.token req.reference_frame.origin)
         , ("reference_axes", ReferenceFrame.axes_token req.reference_frame) ] ++
          [ ("interleaf_id", il.id)
          , ("interleaf_thickness", toString il.thickness)
          , ("interleaf_weight", toString il.weight)
          , ("interleaf_frequency", toString freq) ])
        ips, ?_, hlen, ?_⟩
    case refine_1 =>
      simp only [stackLayers, if_neg (by omega : ¬ (levels = 0)),
        if_neg (not_le.mpr hz), if_neg (by omega : ¬ (freq = 0)),
        Except.bind, bind]
      rw [hloop]
    case refine_2 =>
      intro h
      simp at h

/-- C6 witness: the spec's scenario twice over — first with the sample
separator sheet configured (frequency 2), where 3 levels still yield
exactly 3 layers, then with no interleaf and `z_step` defaulted to the
100 mm box height, where the layer Z bases are `0, 100, 200` (each level
`k` sits at `0 + k·100`). -/
theorem claim_C6_witness :
    (∃ seq, stackLayers sampleRequest 3 none none none none (some sampleInterleaf) 2 =
        .ok seq ∧
      seq.layers.length = 3 ∧
      ((some sampleInterleaf : Option Interleaf) = none →
        seq.interleaves = [] ∧
        ∀ k : ℕ, k < 3 → ∃ lp, seq.layers[k]? = some lp ∧
          lp.placements ≠ [] ∧
          (∀ q ∈ lp.placements, q.position.z =
            sampleRequest.pickup_offset.z +
              (k : ℚ) * (none : Option ℚ).getD sampleRequest.box.dimensions.height) ∧
          (lp.placements.map (fun q => q.position.z)).min? =
            some (sampleRequest.pickup_offset.z +
              (k : ℚ) * (none : Option ℚ).getD sampleRequest.box.dimensions.height))) ∧
    (∃ seq, stackLayers sampleRequest 3 none none none none none 1 = .ok seq ∧
      seq.layers.length = 3 ∧
      ((none : Option Interleaf) = none →
        seq.interleaves = [] ∧
        ∀ k : ℕ, k < 3 → ∃ lp, seq.layers[k]? = some lp ∧
          lp.placements ≠ [] ∧
          (∀ q ∈ lp.placements, q.position.z =
            sampleRequest.pickup_offset.z +
              (k : ℚ) * (none : Option ℚ).getD sampleRequest.box.dimensions.height) ∧
          (lp.placements.map (fun q => q.position.z)).min? =
            some (sampleRequest.pickup_offset.z +
              (k : ℚ) * (none : Option ℚ).getD sampleRequest.box.dimensions.height))) :=
  ⟨claim_C6 sampleRequest 3 none none none none (some sampleInterleaf) 2
      (verpalPlanOrientation sampleRequest 90)
      (by norm_num)
      (by norm_num [Option.getD, sampleRequest, sampleBox])
      (by norm_num)
      sample_verpalPlanLayer,
    claim_C6 sampleRequest 3 none none none none none 1
      (verpalPlanOrientation sampleRequest 90)
      (by norm_num)
      (by norm_num [Option.getD, sampleRequest, sampleBox])
      (by norm_num)
      sample_verpalPlanLayer⟩

/-- C7: with an interleaf configured, `interleaf_frequency = 1` and
3 levels, exactly 2 InterleafPlacements are produced, at levels 1 and 2 —
strictly between layers, never before the first (no level-0 entry) nor
after the last (no level-3 entry) — each recorded at the running Z reached
after the preceding layer (`z_step` and `2·z_step + thickness`); and the
third layer's placement Z exceeds the second layer's by exactly
`z_step + thickness`. -/
theorem claim_C7 (req : LayerRequest) (corners : Option (List String))
    (z_step : Option ℚ) (checker : Option CollisionChecker)
    (overrides : Option (List (String × ApproachConfig))) (il : Interleaf)
    (p : LayerPlan)
    (hz : 0 < z_step.getD req.box.dimensions.height)
    (hp : verpalPlanLayer req = .ok p) :
    ∃ seq, stackLayers req 3 corners z_step checker overrides (some il) 1 = .ok seq ∧
      seq.layers.length = 3 ∧
      seq.interleaves.length = 2 ∧
      seq.interleaves[0]? =
        some ⟨1, z_step.getD req.box.dimensions.height, il⟩ ∧
      seq.interleaves[1]? =
        some ⟨2, 2 * z_step.getD req.box.dimensions.height + il.thickness, il⟩ ∧
      (∀ ip ∈ seq.interleaves, 1 ≤ ip.level ∧ ip.level < 3) ∧
      (∃ l1 l2, seq.layers[1]? = some l1 ∧ seq.layers[2]? = some l2 ∧
        l1.placements ≠ [] ∧ l2.placements ≠ [] ∧
        ∀ q2 ∈ l2.placements, ∀ q1 ∈ l1.placements,
          q2.position.z - q1.position.z =
            z_step.getD req.box.dimensions.height + il.thickness) := by
  obtain ⟨-, hpne⟩ := verpalPlanLayer_ok_dest hp
  set z := z_step.getD req.box.dimensions.height with hzdef
  obtain ⟨l2, h2eq, h2pl⟩ := @stackLoop_step_noguard req p hp
    (orderedCorners req corners) z checker overrides il 1 3 0 2
    (0 + z + il.thickness + z + il.thickness) ([], [])
    (stackLoop_zero req (orderedCorners req corners) z checker overrides (some il) 1 3 3
      (0 + z + il.thickness + z + il.thickness + z))
    (by norm_num)
  obtain ⟨l1, h1eq, h1pl⟩ := @stackLoop_step_guard req p hp
    (orderedCorners req corners) z checker overrides il 1 3 1 1
    (0 + z + il.thickness) ([l2], [])
    h2eq
    (by norm_num)
  obtain ⟨l0, h0eq, h0pl⟩ := @stackLoop_step_guard req p hp
    (orderedCorners req corners) z checker overrides il 1 3 2 0 0
    (l1 :: [l2], [InterleafPlacement.mk 2 (0 + z + il.thickness + z) il])
    h1eq
    (by norm_num)
  have h0eq3 : stackLoop req (orderedCorners req corners) z checker overrides (some il)
      1 3 3 0 0 =
      .ok (l0 :: l1 :: [l2],
        InterleafPlacement.mk 1 (0 + z) il ::
          [InterleafPlacement.mk 2 (0 + z + il.thickness + z) il]) := h0eq
  refine ⟨LayerSequencePlan.mk (l0 :: l1 :: [l2])
      ([ ("levels", toString (3 : ℕ))
       , ("z_step", toString z)
       , ("corners", String.intercalate "," (orderedCorners req corners))
       , ("reference_origin", Origin.token req.reference_frame.origin)
       , ("reference_axes", ReferenceFrame.axes_token req.reference_frame) ] ++
        [ ("interleaf_id", il.id)
        , ("interleaf_thickness", toString il.thickness)
        , ("interleaf_weight", toString il.weight)
        , ("interleaf_frequency", toString (1 : ℕ)) ])
      (InterleafPlacement.mk 1 (0 + z) il ::
        [InterleafPlacement.mk 2 (0 + z + il.thickness + z) il]),
    ?_, rfl, rfl, ?_, ?_, ?_, ?_⟩
  · simp only [stackLayers, if_neg (by norm_num : ¬ ((3 : ℕ) = 0)),
      if_neg (not_le.mpr hz), if_neg (by norm_num : ¬ ((1 : ℕ) = 0)),
      Except.bind, bind]
    rw [h0eq3]
  · show some (InterleafPlacement.mk 1 (0 + z) il) = some ⟨1, z, il⟩
    rw [zero_add]
  · show some (InterleafPlacement.mk 2 (0 + z + il.thickness + z) il) =
      some ⟨2, 2 * z + il.thickness, il⟩
    have : 0 + z + il.thickness + z = 2 * z + il.thickness := by ring
    rw [this]
  · intro ip hip
    rcases List.mem_cons.mp hip with rfl | hip
    · exact ⟨le_refl 1, by norm_num⟩
    · rcases List.mem_cons.mp hip with rfl | hip
      · exact ⟨by norm_num, by norm_num⟩
      · simp at hip
  · refine ⟨l1, l2, rfl, rfl, ?_, ?_, ?_⟩
    · rw [h1pl]
      simp [hpne]
    · rw [h2pl]
      simp [hpne]
    · intro q2 hq2 q1 hq1
      rw [h2pl] at hq2
      rw [h1pl] at hq1
      simp only [List.mem_map] at hq2 hq1
      obtain ⟨b2, hb2, rfl⟩ := hq2
      obtain ⟨b1, hb1, rfl⟩ := hq1
      have hzb2 := verpalPlanLayer_ok_z hp hb2
      have hzb1 := verpalPlanLayer_ok_z hp hb1
      simp only [hzb2, hzb1]
      ring

/-- C7 witness: the example request stacked 3 levels high with the sample
separator sheet at frequency 1 produces exactly two sheets, at levels 1
and 2. -/
theorem claim_C7_witness :
    ∃ seq, stackLayers sampleRequest 3 none none none none (some sampleInterleaf) 1 =
        .ok seq ∧
      seq.layers.length = 3 ∧
      seq.interleaves.length = 2 ∧
      seq.interleaves[0]? =
        some ⟨1, (none : Option ℚ).getD sampleRequest.box.dimensions.height, sampleInterleaf⟩ ∧
      seq.interleaves[1]? =
        some ⟨2, 2 * (none : Option ℚ).getD sampleRequest.box.dimensions.height +
          sampleInterleaf.thickness, sampleInterleaf⟩ ∧
      (∀ ip ∈ seq.interleaves, 1 ≤ ip.level ∧ ip.level < 3) ∧
      (∃ l1 l2, seq.layers[1]? = some l1 ∧ seq.layers[2]? = some l2 ∧
        l1.placements ≠ [] ∧ l2.placements ≠ [] ∧
        ∀ q2 ∈ l2.placements, ∀ q1 ∈ l1.placements,
          q2.position.z - q1.position.z =
            (none : Option ℚ).getD sampleRequest.box.dimensions.height +
              sampleInterleaf.thickness) :=
  claim_C7 sampleRequest none none none none sampleInterleaf
    (verpalPlanOrientation sampleRequest 90)
    (by norm_num [Option.getD, sampleRequest, sampleBox])
    sample_verpalPlanLayer

/-- C2: planning the spec's pallet/box once in the default SW/E/N frame
and once in the NE/W/S frame succeeds in both frames with 32 placements
each; every placement's stored (reported) position differs between the two
frames, while `restore()` maps the two stored positions of each index to
exactly the same point of the usable rectangle.  (The frame-aware verpal
planner is modelled from the spec, `src/verpal/planner.py` being absent
from `src/`.) -/
theorem claim_C2 :
    ∃ p1 p2, verpalPlanLayer sampleRequest = .ok p1 ∧
      verpalPlanLayer sampleRequestNE = .ok p2 ∧
      p1.placements.length = 32 ∧ p2.placements.length = 32 ∧
      ∀ i : ℕ, i < 32 →
        ∃ a b, p1.placements[i]? = some a ∧ p2.placements[i]? = some b ∧
          a.position ≠ b.position ∧
          sampleRequest.reference_frame.restore a.position sampleRequest.pallet
              (LayerRequest.overhang_x sampleRequest)
              (LayerRequest.overhang_y sampleRequest) =
            sampleRequestNE.reference_frame.restore b.position sampleRequestNE.pallet
              (LayerRequest.overhang_x sampleRequestNE)
              (LayerRequest.overhang_y sampleRequestNE) := by
  refine ⟨verpalPlanOrientation sampleRequest 90, verpalPlanOrientation sampleRequestNE 90,
    sample_verpalPlanLayer, sample_verpalPlanLayer_NE, ?_, ?_, ?_⟩
  · rw [verpalPlanOrientation_placements, List.length_map, planOrientation_length,
      sample_cols90, sample_rows90]
  · rw [verpalPlanOrientation_placements, sample_planOrientation_NE, List.length_map,
      planOrientation_length, sample_cols90, sample_rows90]
  · intro i hi
    refine ⟨{ cellPlacement sampleRequest 90 0 0 150 200 4 8 (i / 8, i % 8) with
        position := sampleRequest.reference_frame.transform
          (cellPlacement sampleRequest 90 0 0 150 200 4 8 (i / 8, i % 8)).position
          sampleRequest.pallet (LayerRequest.overhang_x sampleRequest)
          (LayerRequest.overhang_y sampleRequest) },
      { cellPlacement sampleRequest 90 0 0 150 200 4 8 (i / 8, i % 8) with
        position := sampleRequestNE.reference_frame.transform
          (cellPlacement sampleRequest 90 0 0 150 200 4 8 (i / 8, i % 8)).position
          sampleRequestNE.pallet (LayerRequest.overhang_x sampleRequestNE)
          (LayerRequest.overhang_y sampleRequestNE) },
      ?_, ?_, ?_, ?_⟩
    case refine_1 =>
      rw [verpalPlanOrientation_placements, List.getElem?_map, sample_p90_getElem i hi]
      rfl
    case refine_2 =>
      rw [verpalPlanOrientation_placements, sample_planOrientation_NE, List.getElem?_map,
        sample_p90_getElem i hi]
      rfl
    case refine_3 =>
      exact sample_transforms_differ
        (cellPlacement sampleRequest 90 0 0 150 200 4 8 (i / 8, i % 8)).position
        (cell_x_ne_600 (i % 8))
    case refine_4 =>
      exact (restore_transform sampleRequest.reference_frame sampleRequest.pallet
          (LayerRequest.overhang_x sampleRequest) (LayerRequest.overhang_y sampleRequest)
          (cellPlacement sampleRequest 90 0 0 150 200 4 8 (i / 8, i % 8)).position).trans
        (restore_transform sampleRequestNE.reference_frame sampleRequestNE.pallet
          (LayerRequest.overhang_x sampleRequestNE) (LayerRequest.overhang_y sampleRequestNE)
          (cellPlacement sampleRequest 90 0 0 150 200 4 8 (i / 8, i % 8)).position).symm

end VerPal
